import Mathlib

/-!

Shallow embedding of the uix-checker audit pipeline.

Sources embedded here:
- `src/unnamed/part_002` (the scoring engine `lib/scorer.js`): `calculateScores`,
  the four sub-scorers, `calculateContrastRatio` / `getLuminance`;
- `src/lib/crawler.js`: the keyword detectors `hasActionVerb`, `hasPlaceholderText`;
- `src/unnamed/part_000` (`lib/prompts.js`): `parseJSONResponse`;
- `src/lib/gemini.js`: the orchestrator `runAIAnalysis`, the per-stage calls and
  the three fallback synthesizers;
- `src/lib/pagespeed.js`: `parsePageSpeedData`, `getCombinedPageSpeedScore`, `average`.

Number representation: JavaScript numbers are modelled exactly with `Int`/`Rat`.
All point rules of the scoring engine are integers, so sub-scores live in `Int`.
The weighted total uses IEEE doubles in the source; an exhaustive check over every
reachable sub-score quadruple (all sub-scores are multiples of 5, see
`calculateContentScore` etc. below, whose point rules are all multiples of 5) shows
the double computation of `Math.round(c*0.30 + l*0.25 + t*0.25 + a*0.20)` agrees
with exact rational arithmetic rounded half-up at every reachable input, so the
rational model is exact.  `Math.round x` is `⌊x + 1/2⌋` (ties toward +∞).

Strings are Lean `String`s; character-level routines work on `List Char`
(`String.data`).  JavaScript falsiness of the values appearing in the sources is
modelled case by case: a possibly-absent number is an `Option`, an absent string
field is `""`, `NaN` results of colour parsing are `Option.none`.
-/

/-- JavaScript `Math.round`: nearest integer, ties toward +∞, i.e. `⌊q + 1/2⌋`. -/
def jsRound (q : ℚ) : ℤ := ⌊q + (1 : ℚ)/2⌋

/-- `Math.max(0, Math.min(100, score))` clamping used by all four sub-scorers. -/
def clampScore (x : ℤ) : ℤ := max 0 (min 100 x)

/-! ### String helpers (crawler.js keyword detectors) -/

/-- ASCII lower-casing, matching `String.prototype.toLowerCase` on the ASCII
keyword lists used by the detectors (`String.map Char.toLower`, written on the
character list). -/
def toLowerJS (s : String) : String := String.mk (s.data.map Char.toLower)

/-- Occurrence of `needle` as a contiguous run of `haystack`. -/
def listContains (haystack needle : List Char) : Bool :=
  match haystack with
  | [] => needle.isEmpty
  | _ :: rest => needle.isPrefixOf haystack || listContains rest needle

/-- Substring containment (`String.prototype.includes`). -/
def includesJS (haystack needle : String) : Bool :=
  listContains haystack.data needle.data

/-- `hasPlaceholderText` from crawler.js: any of the fixed placeholder phrases
occurs in the lower-cased text. -/
def hasPlaceholderText (text : String) : Bool :=
  let placeholders := ["lorem ipsum", "dolor sit amet", "consectetur adipiscing",
    "placeholder", "sample text", "dummy text"]
  placeholders.any fun p => includesJS (toLowerJS text) p

/-- `hasActionVerb` from crawler.js: any of the fixed action-verb keywords occurs
in the lower-cased text. -/
def hasActionVerb (text : String) : Bool :=
  let actionVerbs := ["start", "mulai", "get", "dapatkan", "try", "coba",
    "join", "gabung", "sign up", "daftar", "register",
    "download", "unduh", "buy", "beli", "subscribe",
    "learn", "pelajari", "discover", "temukan", "explore",
    "create", "buat", "build", "bangun", "boost", "tingkatkan"]
  actionVerbs.any fun verb => includesJS (toLowerJS text) verb

/-! ### PageModel: the crawled-data structure produced by `crawlURL` -/

structure LinkData where
  text : String := ""
  href : String := ""
deriving Repr, DecidableEq

structure ButtonData where
  text : String := ""
  type : String := "button"
deriving Repr, DecidableEq

structure InputData where
  type : String := "text"
  name : String := ""
  label : String := ""
  hasLabel : Bool := false
deriving Repr, DecidableEq

structure FormData where
  id : String := ""
  inputs : List InputData := []
deriving Repr, DecidableEq

structure ImageData where
  src : String := ""
  alt : String := ""
deriving Repr, DecidableEq

structure ColorPair where
  fg : String := ""
  bg : String := ""
  element : String := ""
deriving Repr, DecidableEq

structure CssSummary where
  body_font_size_px : ℤ := 16
  colors : List String := []
  color_pairs_sample : List ColorPair := []
deriving Repr, DecidableEq

/-- `text_stats` of the crawler.  The source stores `text_ratio` as a decimal
string (`toFixed(2)`) and the scorer reads it back with `parseFloat`; the
round-trip value is modelled directly as the rational `text_ratio_pct`
(source key: `text_ratio`). -/
structure TextStats where
  total_text_length : ℕ := 0
  html_length : ℕ := 0
  text_ratio_pct : ℚ := 0
deriving Repr, DecidableEq

structure Headings where
  h1 : List String := []
  h2 : List String := []
  h3 : List String := []
deriving Repr, DecidableEq

structure PageModel where
  url : String := ""
  title : String := ""
  meta_description : String := ""
  headings : Headings := {}
  paragraphs : List String := []
  links : List LinkData := []
  buttons : List ButtonData := []
  forms : List FormData := []
  images : List ImageData := []
  css_summary : CssSummary := {}
  text_stats : TextStats := {}
deriving Repr, DecidableEq

/-! ### Whitespace and word splitting (JS `trim` / `split(/\s+/)`) -/

/-- JavaScript whitespace for `trim` and `\s`: space, tab, LF, CR, VT, FF. -/
def isWsJS (c : Char) : Bool :=
  c = ' ' || c = '\t' || c = '\n' || c = '\r' || c = Char.ofNat 11 || c = Char.ofNat 12

/-- `String.prototype.trim` on a character list. -/
def trimChars (l : List Char) : List Char :=
  ((l.dropWhile isWsJS).reverse.dropWhile isWsJS).reverse

/-- `s.trim().split(/\s+/).length`: the number of maximal non-whitespace runs,
except that the empty string splits to `[""]` and so has length 1. -/
def wordsLenJS (s : String) : ℕ :=
  let runs := (((trimChars s.data).splitOnP isWsJS).filter fun w => !w.isEmpty).length
  if runs = 0 then 1 else runs

/-! ### Colour parsing and WCAG contrast (scorer.js `getLuminance`,

`calculateContrastRatio`).

`parseInt(h, 16)` returns `NaN` when no leading hexadecimal digit is present
(after optional whitespace, sign and an optional `0x`/`0X` prefix, which
radix 16 strips per ECMA-262); a `NaN` channel propagates through the
gamma correction, the luminance sum, the max/min and the final division, and
makes every later `>=` comparison false.  `Option.none` models `NaN` here. -/

def hexDigitVal (c : Char) : Option ℕ :=
  if '0' ≤ c ∧ c ≤ '9' then some (c.toNat - '0'.toNat)
  else if 'a' ≤ c ∧ c ≤ 'f' then some (c.toNat - 'a'.toNat + 10)
  else if 'A' ≤ c ∧ c ≤ 'F' then some (c.toNat - 'A'.toNat + 10)
  else none

def hexAcc (acc : ℕ) : List Char → ℕ
  | [] => acc
  | c :: rest =>
    match hexDigitVal c with
    | some d => hexAcc (16 * acc + d) rest
    | none => acc

def hexPrefixVal : List Char → Option ℕ
  | [] => none
  | c :: rest =>
    match hexDigitVal c with
    | some d => some (hexAcc d rest)
    | none => none

/-- The radix-16 prefix rule of ECMA-262 `parseInt`: after whitespace and
sign, a leading `0x` or `0X` (exactly two characters) is skipped before the
digits are read, so `parseInt('0x', 16)` is `NaN`. -/
def stripHexMark : List Char → List Char
  | '0' :: 'x' :: rest => rest
  | '0' :: 'X' :: rest => rest
  | s => s

/-- `parseInt(s, 16)`: skip leading whitespace, optional sign, an optional
`0x`/`0X` prefix, then the maximal run of hexadecimal digits; `none` (`NaN`)
when no digit follows. -/
def parseIntHexChars (s : List Char) : Option ℤ :=
  match s.dropWhile isWsJS with
  | [] => none
  | c :: rest =>
    if c = '-' then (hexPrefixVal (stripHexMark rest)).map fun n => -(n : ℤ)
    else if c = '+' then (hexPrefixVal (stripHexMark rest)).map fun n => (n : ℤ)
    else (hexPrefixVal (stripHexMark (c :: rest))).map fun n => (n : ℤ)

/-- JS `substr(start, len)` for non-negative arguments. -/
def substrJS (l : List Char) (start len : ℕ) : List Char := (l.drop start).take len

/-- `String.prototype.replace` with a plain one-character pattern removes only
the first occurrence. -/
def removeFirstChar (c : Char) : List Char → List Char
  | [] => []
  | x :: xs => if x = c then xs else x :: removeFirstChar c xs

def startsWithHash (s : String) : Bool :=
  match s.data with
  | c :: _ => c = '#'
  | [] => false

/-- Gamma correction of one sRGB channel (scorer.js, getLuminance body). -/
noncomputable def gammaJS (c : ℚ) : ℝ :=
  if c ≤ 0.03928 then (c : ℝ) / 12.92
  else (((c : ℝ) + 0.055) / 1.055) ^ (2.4 : ℝ)

/-- `getLuminance` from scorer.js: hex colours are split into three 2-character
channels via `substr` and `parseInt(_, 16)`; non-`#` colours get the neutral
luminance 0.5; a `NaN` channel (`none`) makes the luminance `NaN` (`none`). -/
noncomputable def getLuminance (color : String) : Option ℝ :=
  if startsWithHash color then
    let hex := removeFirstChar '#' color.data
    match parseIntHexChars (substrJS hex 0 2), parseIntHexChars (substrJS hex 2 2),
        parseIntHexChars (substrJS hex 4 2) with
    | some r, some g, some b =>
        some (0.2126 * gammaJS ((r : ℚ) / 255) + 0.7152 * gammaJS ((g : ℚ) / 255)
          + 0.0722 * gammaJS ((b : ℚ) / 255))
    | _, _, _ => none
  else some 0.5

/-- `calculateContrastRatio` from scorer.js (suffix `JS` added to the source
name): `(lighter + 0.05) / (darker + 0.05)`; `NaN` luminances give `NaN`. -/
noncomputable def calculateContrastRatioJS (color1 color2 : String) : Option ℝ :=
  match getLuminance color1, getLuminance color2 with
  | some l1, some l2 => some ((max l1 l2 + 0.05) / (min l1 l2 + 0.05))
  | _, _ => none

/-- The accessibility scorer counts a colour pair as passing when
`ratio >= 4.5`; a `NaN` ratio compares false. -/
noncomputable def contrastPassB (pair : ColorPair) : Bool :=
  match calculateContrastRatioJS pair.fg pair.bg with
  | some r => @decide ((4.5 : ℝ) ≤ r) (Classical.propDecidable _)
  | none => false

/-! ### Score detail records.

The source builds `details` as a dynamic object whose boolean keys are only set
when true; every consumer reads them with JS truthiness, so a missing key is
modelled as `false` (and the only-sometimes-set number
`missing_alt_percentage` as an `Option`). -/

structure ContentDetails where
  has_h1 : Bool := false
  h1_length_good : Bool := false
  h1_has_action : Bool := false
  meta_description_optimal : Bool := false
  /-- source key: `good_text_ratio` -/
  good_text_ratio_ok : Bool := false
  has_placeholder : Bool := false
  good_paragraph_count : Bool := false
  title_length_good : Bool := false
deriving Repr, DecidableEq

structure LayoutDetails where
  single_h1 : Bool := false
  no_h1 : Bool := false
  multiple_h1 : Bool := false
  has_subheadings : Bool := false
  proper_hierarchy : Bool := false
  total_cta_count : ℕ := 0
  optimal_cta_density : Bool := false
  too_many_ctas : Bool := false
  has_content_blocks : Bool := false
  has_forms : Bool := false
  good_image_count : Bool := false
  many_images : Bool := false
deriving Repr, DecidableEq

structure CtaDetails where
  primary_cta_count : ℕ := 0
  cta_examples : List String := []
  has_primary_cta : Bool := false
  has_quality_ctas : Bool := false
  most_ctas_quality : Bool := false
  optimal_cta_count : Bool := false
  too_many_competing_ctas : Bool := false
  uses_buttons : Bool := false
deriving Repr, DecidableEq

structure AccessibilityDetails where
  contrast_checks : ℕ := 0
  passing_contrast : ℕ := 0
  low_contrast_count : ℕ := 0
  good_contrast : Bool := false
  no_contrast_data : Bool := false
  total_images : ℕ := 0
  images_with_alt : ℕ := 0
  missing_alt_percentage : Option ℤ := none
  good_alt_coverage : Bool := false
  no_images : Bool := false
  body_font_size : ℤ := 16
  good_font_size : Bool := false
  total_inputs : ℕ := 0
  inputs_with_labels : ℕ := 0
  good_form_labels : Bool := false
  no_forms : Bool := false
deriving Repr, DecidableEq

/-! ### Content Clarity Score (scorer.js `calculateContentScore`).

The running `score` accumulator is decomposed into one named summand per
commented block of the source; the blocks are summed in source order and the
result clamped. -/

/-- Block 1 of `calculateContentScore`: H1 presence & quality (max 40).
`data.headings.h1[0] || ''` is the first H1 or the empty string. -/
def contentH1Points (data : PageModel) : ℤ :=
  let h1 := data.headings.h1.headD ""
  if 0 < h1.length then
    20 + (if h1.length ≤ 90 then 10 else if h1.length ≤ 120 then 5 else 0)
      + (if hasActionVerb h1 then 10 else 0)
  else 0

/-- Block 2: meta description (max 15); `if (data.meta_description)` is
string truthiness, i.e. non-emptiness. -/
def contentMetaPoints (data : PageModel) : ℤ :=
  if data.meta_description ≠ "" then
    10 + (if 50 ≤ data.meta_description.length ∧ data.meta_description.length ≤ 160
          then 5 else 0)
  else 0

/-- Block 3: text ratio (max 10). -/
def contentTextRatioPoints (data : PageModel) : ℤ :=
  let textRatio := data.text_stats.text_ratio_pct
  if 15 ≤ textRatio then 10 else if 5 ≤ textRatio then 5 else 0

/-- The text scanned for placeholder phrases: title, meta description, all H1s
and the first five paragraphs, joined by spaces. -/
def contentAllText (data : PageModel) : String :=
  String.intercalate " "
    ([data.title, data.meta_description] ++ data.headings.h1 ++ data.paragraphs.take 5)

/-- Block 4 condition: placeholder detection (penalty −10). -/
def contentHasPlaceholder (data : PageModel) : Bool :=
  hasPlaceholderText (contentAllText data)

/-- Block 5: paragraph count (max 10). -/
def contentParagraphPoints (data : PageModel) : ℤ :=
  let paraCount := data.paragraphs.length
  if 2 ≤ paraCount ∧ paraCount ≤ 10 then 10
  else if paraCount = 1 ∨ 20 < paraCount then 0
  else 5

/-- Block 6: title check (max 15). -/
def contentTitlePoints (data : PageModel) : ℤ :=
  if data.title ≠ "" then 10 + (if data.title.length ≤ 70 then 5 else 0) else 0

structure ContentScorePart where
  score : ℤ
  details : ContentDetails
deriving Repr, DecidableEq

def calculateContentScore (data : PageModel) : ContentScorePart :=
  let h1 := data.headings.h1.headD ""
  let raw := contentH1Points data + contentMetaPoints data + contentTextRatioPoints data
    + (if contentHasPlaceholder data then -10 else 0)
    + contentParagraphPoints data + contentTitlePoints data
  { score := clampScore raw
    details := {
      has_h1 := decide (0 < h1.length)
      h1_length_good := decide (0 < h1.length ∧ h1.length ≤ 90)
      h1_has_action := decide (0 < h1.length) && hasActionVerb h1
      meta_description_optimal := decide (data.meta_description ≠ ""
        ∧ 50 ≤ data.meta_description.length ∧ data.meta_description.length ≤ 160)
      good_text_ratio_ok := decide ((15 : ℚ) ≤ data.text_stats.text_ratio_pct)
      has_placeholder := contentHasPlaceholder data
      good_paragraph_count := decide (2 ≤ data.paragraphs.length ∧ data.paragraphs.length ≤ 10)
      title_length_good := decide (data.title ≠ "" ∧ data.title.length ≤ 70) } }

/-! ### Layout & Hierarchy Score (scorer.js `calculateLayoutScore`) -/

/-- Heading-structure block, H1-count part: +15 for exactly one H1, +0 for
none, +5 for several. -/
def layoutH1CountPoints (data : PageModel) : ℤ :=
  if data.headings.h1.length = 1 then 15
  else if data.headings.h1.length = 0 then 0
  else 5

/-- `buttons.length + links.filter(hasActionVerb).length` (layout CTA density). -/
def layoutTotalCTAs (data : PageModel) : ℕ :=
  data.buttons.length + (data.links.filter fun l => hasActionVerb l.text).length

/-- CTA density block (max 25, −10 penalty for clutter). -/
def layoutCtaDensityPoints (data : PageModel) : ℤ :=
  let totalCTAs := layoutTotalCTAs data
  if 1 ≤ totalCTAs ∧ totalCTAs ≤ 3 then 15
  else if totalCTAs = 0 then 0
  else if 5 < totalCTAs then -10
  else 10

structure LayoutScorePart where
  score : ℤ
  details : LayoutDetails
deriving Repr, DecidableEq

def calculateLayoutScore (data : PageModel) : LayoutScorePart :=
  let h1Count := data.headings.h1.length
  let h2Count := data.headings.h2.length
  let h3Count := data.headings.h3.length
  let totalCTAs := layoutTotalCTAs data
  let imageCount := data.images.length
  let raw := layoutH1CountPoints data
    + (if 0 < h2Count ∨ 0 < h3Count then 15 else 0)
    + (if 0 < h1Count ∧ 0 < h2Count then 5 else 0)
    + layoutCtaDensityPoints data
    + (if 3 ≤ data.paragraphs.length then 10 else 0)
    + (if 0 < data.forms.length ∧ data.forms.length ≤ 2 then 10 else 0)
    + (if 1 ≤ imageCount ∧ imageCount ≤ 10 then 20 else if 10 < imageCount then 10 else 0)
  { score := clampScore raw
    details := {
      single_h1 := decide (h1Count = 1)
      no_h1 := decide (h1Count = 0)
      multiple_h1 := decide (1 < h1Count)
      has_subheadings := decide (0 < h2Count ∨ 0 < h3Count)
      proper_hierarchy := decide (0 < h1Count ∧ 0 < h2Count)
      total_cta_count := totalCTAs
      optimal_cta_density := decide (1 ≤ totalCTAs ∧ totalCTAs ≤ 3)
      too_many_ctas := decide (5 < totalCTAs)
      has_content_blocks := decide (3 ≤ data.paragraphs.length)
      has_forms := decide (0 < data.forms.length ∧ data.forms.length ≤ 2)
      good_image_count := decide (1 ≤ imageCount ∧ imageCount ≤ 10)
      many_images := decide (10 < imageCount) } }

/-! ### Actionability / CTA Score (scorer.js `calculateCTAScore`) -/

structure CtaItem where
  text : String := ""
  type : String := "button"
deriving Repr, DecidableEq

/-- `allCTAs`: buttons plus action-verb links, in that order. -/
def allCTAsOf (data : PageModel) : List CtaItem :=
  data.buttons.map (fun b => { text := b.text, type := "button" })
    ++ (data.links.filter fun l => hasActionVerb l.text).map
        fun l => { text := l.text, type := "link" }

/-- A CTA is counted as quality when its trimmed text has at least two
whitespace-separated words and contains an action verb. -/
def isQualityCTA (cta : CtaItem) : Bool :=
  decide (2 ≤ wordsLenJS cta.text) && hasActionVerb cta.text

structure CtaScorePart where
  score : ℤ
  details : CtaDetails
deriving Repr, DecidableEq

def calculateCTAScore (data : PageModel) : CtaScorePart :=
  let allCTAs := allCTAsOf data
  let n := allCTAs.length
  let qualityCTAs := (allCTAs.filter isQualityCTA).length
  let raw : ℤ := (if 0 < n then 20 else 0)
    + (if 0 < qualityCTAs then
         15 + (if (n : ℚ) * 0.5 ≤ (qualityCTAs : ℚ) then 15 else 0)
       else 0)
    + (if 1 ≤ n ∧ n ≤ 3 then 30
       else if 5 < n then -10
       else if n = 4 ∨ n = 5 then 15
       else 0)
    + (if 0 < data.buttons.length then 20 else if 0 < n then 10 else 0)
  { score := clampScore raw
    details := {
      primary_cta_count := n
      cta_examples := (allCTAs.take 3).map fun c => c.text
      has_primary_cta := decide (0 < n)
      has_quality_ctas := decide (0 < qualityCTAs)
      most_ctas_quality := decide (0 < qualityCTAs) && decide ((n : ℚ) * 0.5 ≤ (qualityCTAs : ℚ))
      optimal_cta_count := decide (1 ≤ n ∧ n ≤ 3)
      too_many_competing_ctas := decide (5 < n)
      uses_buttons := decide (0 < data.buttons.length) } }

/-! ### Accessibility / WCAG-lite Score (scorer.js `calculateAccessibilityScore`) -/

/-- `img.alt && img.alt.length > 0 && img.alt.toLowerCase() !== 'image'`. -/
def imageHasAlt (img : ImageData) : Bool :=
  decide (img.alt ≠ "") && decide (toLowerJS img.alt ≠ "image")

structure AccessibilityScorePart where
  score : ℤ
  details : AccessibilityDetails

noncomputable def calculateAccessibilityScore (data : PageModel) : AccessibilityScorePart :=
  let colorPairs := data.css_summary.color_pairs_sample
  let contrastChecks := colorPairs.length
  let passingContrast := (colorPairs.filter contrastPassB).length
  let contrastPoints : ℤ :=
    if 0 < contrastChecks then
      (if (0.8 : ℚ) ≤ (passingContrast : ℚ) / (contrastChecks : ℚ) then 60
       else if (0.5 : ℚ) ≤ (passingContrast : ℚ) / (contrastChecks : ℚ) then 40
       else if (0.25 : ℚ) ≤ (passingContrast : ℚ) / (contrastChecks : ℚ) then 20
       else 0)
    else 30
  let totalImages := data.images.length
  let imagesWithAlt := (data.images.filter imageHasAlt).length
  let altPoints : ℤ :=
    if 0 < totalImages then
      (if (0.8 : ℚ) ≤ (imagesWithAlt : ℚ) / (totalImages : ℚ) then 20
       else if (0.5 : ℚ) ≤ (imagesWithAlt : ℚ) / (totalImages : ℚ) then 10
       else 0)
    else 10
  let fontSize := data.css_summary.body_font_size_px
  let fontPoints : ℤ := if 16 ≤ fontSize then 10 else if 14 ≤ fontSize then 5 else 0
  let totalInputs : ℕ := (data.forms.map fun f => f.inputs.length).sum
  let inputsWithLabels : ℕ :=
    (data.forms.map fun f => (f.inputs.filter fun i => i.hasLabel).length).sum
  let labelPoints : ℤ :=
    if 0 < totalInputs then
      (if (0.8 : ℚ) ≤ (inputsWithLabels : ℚ) / (totalInputs : ℚ) then 10
       else if (0.5 : ℚ) ≤ (inputsWithLabels : ℚ) / (totalInputs : ℚ) then 5
       else 0)
    else 5
  { score := clampScore (contrastPoints + altPoints + fontPoints + labelPoints)
    details := {
      contrast_checks := contrastChecks
      passing_contrast := passingContrast
      low_contrast_count := contrastChecks - passingContrast
      good_contrast := decide (0 < contrastChecks)
        && decide ((0.8 : ℚ) ≤ (passingContrast : ℚ) / (contrastChecks : ℚ))
      no_contrast_data := decide (contrastChecks = 0)
      total_images := totalImages
      images_with_alt := imagesWithAlt
      missing_alt_percentage :=
        if 0 < totalImages then
          some (jsRound ((1 - (imagesWithAlt : ℚ) / (totalImages : ℚ)) * 100))
        else none
      good_alt_coverage := decide (0 < totalImages)
        && decide ((0.8 : ℚ) ≤ (imagesWithAlt : ℚ) / (totalImages : ℚ))
      no_images := decide (totalImages = 0)
      body_font_size := fontSize
      good_font_size := decide (16 ≤ fontSize)
      total_inputs := totalInputs
      inputs_with_labels := inputsWithLabels
      good_form_labels := decide (0 < totalInputs)
        && decide ((0.8 : ℚ) ≤ (inputsWithLabels : ℚ) / (totalInputs : ℚ))
      no_forms := decide (totalInputs = 0) } }

/-! ### Aggregation and flags (scorer.js `calculateScores`) -/

structure ScoreSet where
  content : ℤ := 0
  layout : ℤ := 0
  cta : ℤ := 0
  accessibility : ℤ := 0
  total : ℤ := 0
deriving Repr, DecidableEq

structure Flags where
  multiple_h1 : Bool := false
  no_h1 : Bool := false
  low_contrast : Bool := false
  no_primary_cta : Bool := false
  /-- source key: `low_text_ratio` -/
  low_text_ratio_flag : Bool := false
  placeholder_text_detected : Bool := false
  missing_alt_text : Bool := false
  too_many_ctas : Bool := false
  small_font : Bool := false
  no_meta_description : Bool := false
deriving Repr, DecidableEq

structure Details where
  content : ContentDetails := {}
  layout : LayoutDetails := {}
  cta : CtaDetails := {}
  accessibility : AccessibilityDetails := {}

structure ScoringResult where
  scores : ScoreSet
  flags : Flags
  details : Details

noncomputable def calculateScores (data : PageModel) : ScoringResult :=
  let content := calculateContentScore data
  let layout := calculateLayoutScore data
  let cta := calculateCTAScore data
  let accessibility := calculateAccessibilityScore data
  let total := jsRound ((content.score : ℚ) * 0.30 + (layout.score : ℚ) * 0.25
    + (cta.score : ℚ) * 0.25 + (accessibility.score : ℚ) * 0.20)
  { scores := { content := content.score, layout := layout.score, cta := cta.score
                accessibility := accessibility.score, total := total }
    flags := {
      multiple_h1 := decide (1 < data.headings.h1.length)
      no_h1 := decide (data.headings.h1.length = 0)
      low_contrast := decide (0 < accessibility.details.low_contrast_count)
      no_primary_cta := decide (cta.details.primary_cta_count = 0)
      low_text_ratio_flag := decide (data.text_stats.text_ratio_pct < 10)
      placeholder_text_detected := content.details.has_placeholder
      missing_alt_text :=
        match accessibility.details.missing_alt_percentage with
        | some p => decide (50 < p)
        | none => false
      too_many_ctas := decide (5 < cta.details.primary_cta_count)
      small_font := decide (data.css_summary.body_font_size_px < 14)
      no_meta_description := data.meta_description.isEmpty }
    details := { content := content.details, layout := layout.details
                 cta := cta.details, accessibility := accessibility.details } }

/-! ### AI orchestration data (gemini.js).

One stage's model-gateway call, JSON extraction and JSON decoding are modelled
together as an `Option` stage response: `none` covers a transport/timeout
failure as well as unparseable JSON (both throw and are caught by the same
per-stage `catch`), and a present-but-invalid field inside a parsed response is
an `Option` field of the parsed structure. -/

structure Issue where
  category : String := ""
  severity : String := ""
  description : String := ""
  evidence : String := ""
deriving Repr, DecidableEq

structure Strength where
  category : String := ""
  description : String := ""
deriving Repr, DecidableEq

structure AnalysisOut where
  issues : List Issue := []
  strengths : List Strength := []
deriving Repr, DecidableEq

/-- A recommendation as decoded from model output; `priority` may be absent. -/
structure RawRec where
  title : String := ""
  description : String := ""
  category : String := ""
  impact : String := ""
  effort : String := ""
  priority : Option ℤ := none
deriving Repr, DecidableEq

/-- A recommendation after the priority back-fill: `priority` always set. -/
structure JRec where
  title : String := ""
  description : String := ""
  category : String := ""
  impact : String := ""
  effort : String := ""
  priority : ℤ := 0
deriving Repr, DecidableEq

/-- Analyzer-stage JSON after parsing; `issues := none` models a missing or
non-array `issues` field (the validation failure). -/
structure ParsedAnalyzer where
  issues : Option (List Issue) := none
  strengths : Option (List Strength) := none

/-- Recommender-stage JSON after parsing; `recommendations := none` models a
missing or non-array field. -/
structure ParsedRecommender where
  recommendations : Option (List RawRec) := none

structure AnalyzerData where
  scores : ScoreSet
  flags : Flags
  details : Details
  crawledData : PageModel := {}

structure StoryData where
  scores : ScoreSet
  issues : List Issue := []
  strengths : List Strength := []
  crawledData : PageModel := {}

structure RecData where
  issues : List Issue := []
  scores : ScoreSet
  details : Details
  crawledData : PageModel := {}

/-! ### Analyzer fallback (gemini.js `generateFallbackAnalysis`) -/

def fallbackContentIssues (flags : Flags) (scores : ScoreSet) : List Issue :=
  if flags.no_h1 || decide (scores.content < 70) then
    (if flags.no_h1 then
      [{ category := "content", severity := "critical"
         description := "Halaman tidak memiliki heading utama (H1) yang jelas"
         evidence := "H1 count = 0" }] else [])
    ++ (if flags.no_meta_description then
      [{ category := "content", severity := "major"
         description := "Meta description tidak ditemukan, penting untuk SEO"
         evidence := "Meta description missing" }] else [])
    ++ (if flags.low_text_ratio_flag then
      [{ category := "content", severity := "minor"
         description := "Rasio teks terhadap HTML terlalu rendah, halaman mungkin terlalu berat"
         evidence := "Text ratio < 10%" }] else [])
    ++ (if flags.placeholder_text_detected then
      [{ category := "content", severity := "major"
         description := "Terdeteksi teks placeholder (lorem ipsum), website belum production-ready"
         evidence := "Placeholder text found" }] else [])
  else []

def fallbackLayoutIssues (flags : Flags) (scores : ScoreSet) : List Issue :=
  if flags.multiple_h1 || decide (scores.layout < 70) then
    (if flags.multiple_h1 then
      [{ category := "layout", severity := "major"
         description := "Terdapat lebih dari satu H1, dapat membingungkan struktur halaman"
         evidence := "Multiple H1 detected" }] else [])
    ++ (if flags.too_many_ctas then
      [{ category := "layout", severity := "minor"
         description := "Terlalu banyak CTA yang bersaing, dapat membingungkan user"
         evidence := ">5 CTAs detected" }] else [])
    ++ (if scores.layout < 50 then
      [{ category := "layout", severity := "major"
         description := "Hierarki visual tidak jelas, sulit bagi user untuk memindai konten"
         evidence := "Layout score: " ++ toString scores.layout ++ "/100" }] else [])
  else []

/-- The critical no-primary-CTA issue pushed by the CTA block. -/
def ctaCriticalIssue : Issue :=
  { category := "cta", severity := "critical"
    description := "Tidak ada call-to-action (CTA) utama yang jelas"
    evidence := "CTA count = 0" }

def fallbackCtaIssues (flags : Flags) (scores : ScoreSet) : List Issue :=
  if flags.no_primary_cta || decide (scores.cta < 70) then
    (if flags.no_primary_cta then [ctaCriticalIssue]
     else if scores.cta < 50 then
      [{ category := "cta", severity := "major"
         description := "CTA tidak cukup jelas atau tidak mudah ditemukan"
         evidence := "CTA score: " ++ toString scores.cta ++ "/100" }]
     else [])
  else []

def fallbackAccessibilityIssues (flags : Flags) (scores : ScoreSet) : List Issue :=
  if flags.low_contrast || flags.missing_alt_text || flags.small_font
      || decide (scores.accessibility < 70) then
    (if flags.low_contrast then
      [{ category := "accessibility", severity := "major"
         description := "Kontras warna teks kurang memenuhi standar aksesibilitas WCAG"
         evidence := "Color contrast below 4.5:1 ratio" }] else [])
    ++ (if flags.missing_alt_text then
      [{ category := "accessibility", severity := "major"
         description := "Sebagian besar gambar tidak memiliki teks alternatif (alt text)"
         evidence := ">50% images missing alt text" }] else [])
    ++ (if flags.small_font then
      [{ category := "accessibility", severity := "minor"
         description := "Ukuran font terlalu kecil, sulit dibaca terutama di mobile"
         evidence := "Body font size < 14px" }] else [])
  else []

def fallbackGeneralIssues (scores : ScoreSet) : List Issue :=
  (if scores.content < 50 then
    [{ category := "content", severity := "critical"
       description := "Struktur konten sangat lemah, perlu perbaikan menyeluruh"
       evidence := "Content score: " ++ toString scores.content ++ "/100" }] else [])
  ++ (if scores.layout < 40 then
    [{ category := "layout", severity := "critical"
       description := "Layout dan hierarki perlu redesign untuk meningkatkan usability"
       evidence := "Layout score: " ++ toString scores.layout ++ "/100" }] else [])
  ++ (if scores.cta < 40 then
    [{ category := "cta", severity := "critical"
       description := "Tidak ada path yang jelas untuk user mencapai tujuan"
       evidence := "CTA score: " ++ toString scores.cta ++ "/100" }] else [])

/-- `Math.max(scores.content, scores.layout, scores.cta, scores.accessibility)`. -/
def highestSubScore (scores : ScoreSet) : ℤ :=
  max (max (max scores.content scores.layout) scores.cta) scores.accessibility

def fallbackStrengths (scores : ScoreSet) : List Strength :=
  let base :=
    (if 80 ≤ scores.content then
      [{ category := "content"
         description := "Konten terstruktur dengan baik dan mudah dipahami" : Strength }] else [])
    ++ (if 80 ≤ scores.layout then
      [{ category := "layout"
         description := "Hierarki visual jelas dan membantu user memindai konten" : Strength }] else [])
    ++ (if 80 ≤ scores.cta then
      [{ category := "cta"
         description := "Call-to-action jelas dan mudah ditemukan" : Strength }] else [])
    ++ (if 80 ≤ scores.accessibility then
      [{ category := "accessibility"
         description := "Website memenuhi standar aksesibilitas dasar dengan baik" : Strength }] else [])
  base ++ (if base = [] ∧ 60 ≤ highestSubScore scores then
    [{ category := "general"
       description := "Beberapa aspek UX sudah cukup baik sebagai fondasi untuk perbaikan" }]
    else [])

/-- `generateFallbackAnalysis` of gemini.js: issue blocks in source order,
followed by strengths from the good scores with the guaranteed generic
strength when the best sub-score is at least 60. -/
def generateFallbackAnalysis (data : AnalyzerData) : AnalysisOut :=
  { issues := fallbackContentIssues data.flags data.scores
      ++ fallbackLayoutIssues data.flags data.scores
      ++ fallbackCtaIssues data.flags data.scores
      ++ fallbackAccessibilityIssues data.flags data.scores
      ++ fallbackGeneralIssues data.scores
    strengths := fallbackStrengths data.scores }

/-! ### Storyteller fallback (gemini.js `generateFallbackNarrative`) -/

/-- The score-bucket opening sentence of the fallback narrative. -/
def narrativeOpening (score : ℤ) : String :=
  if 80 ≤ score then "🎉 Website Anda memiliki fondasi UX yang solid! "
  else if 60 ≤ score then
    "Website Anda memiliki beberapa aspek UX yang baik, namun ada beberapa area yang perlu diperbaiki untuk meningkatkan pengalaman pengguna. "
  else if 40 ≤ score then
    "Website Anda memerlukan perbaikan UX yang cukup signifikan untuk meningkatkan kepuasan dan konversi pengguna. "
  else
    "⚠️ Website Anda memerlukan perhatian serius pada aspek UX. Banyak area yang perlu diperbaiki untuk memberikan pengalaman yang baik kepada pengguna. "

def generateFallbackNarrative (data : StoryData) : String :=
  let scores := data.scores
  let issues := data.issues
  let score := scores.total
  let opening : String := narrativeOpening score
  let scoreLine := "\n\nSkor keseluruhan UX: " ++ toString score ++ "/100\n\n"
  let categoryAnalysis : List String :=
    (if scores.content < 70 then
      ["📝 **Content (" ++ toString scores.content ++ "/100)**: Struktur konten perlu diperbaiki"
        ++ (if scores.content < 50 then " secara menyeluruh" else "")] else [])
    ++ (if scores.layout < 70 then
      ["🎨 **Layout (" ++ toString scores.layout ++ "/100)**: Hierarki visual kurang jelas"
        ++ (if scores.layout < 50 then ", perlu redesign" else "")] else [])
    ++ (if scores.cta < 70 then
      ["🎯 **CTA (" ++ toString scores.cta ++ "/100)**: Call-to-action tidak cukup efektif"
        ++ (if scores.cta < 50 then ", user kesulitan mencapai tujuan" else "")] else [])
    ++ (if scores.accessibility < 70 then
      ["♿ **Accessibility (" ++ toString scores.accessibility
        ++ "/100)**: Standar aksesibilitas belum terpenuhi dengan baik"] else [])
  let catBlock :=
    if 0 < categoryAnalysis.length then
      "Area yang memerlukan perhatian:\n" ++ String.intercalate "\n" categoryAnalysis ++ "\n\n"
    else ""
  let issuesBlock :=
    if 0 < issues.length then
      let criticalCount := (issues.filter fun i => i.severity == "critical").length
      let majorCount := (issues.filter fun i => i.severity == "major").length
      "Kami menemukan **" ++ toString issues.length ++ " masalah** yang perlu ditangani"
      ++ (if 0 < criticalCount then
            ", termasuk **" ++ toString criticalCount
              ++ " masalah kritis** yang sebaiknya segera diperbaiki"
          else if 0 < majorCount then
            ", dengan **" ++ toString majorCount ++ " masalah mayor** yang perlu perhatian"
          else "")
      ++ ". "
    else ""
  let closing :=
    "\n\nDengan melakukan perbaikan yang kami rekomendasikan secara bertahap, website Anda dapat meningkatkan kepuasan pengguna dan mencapai tujuan bisnis dengan lebih efektif. "
    ++ (if 60 ≤ score then
          "Anda sudah memiliki fondasi yang cukup baik untuk dikembangkan lebih lanjut! 💪"
        else "Mulai dari perbaikan yang paling kritis, lalu lanjutkan ke area lainnya. 🚀")
  opening ++ scoreLine ++ catBlock ++ issuesBlock ++ closing

/-! ### Recommender: priority back-fill and sorting (gemini.js `callRecommender`) -/

/-- `rec.impact === 'high' ? 3 : rec.impact === 'medium' ? 2 : 1`. -/
def impactScoreOf (impact : String) : ℤ :=
  if impact = "high" then 3 else if impact = "medium" then 2 else 1

def effortScoreOf (effort : String) : ℤ :=
  if effort = "high" then 3 else if effort = "medium" then 2 else 1

/-- The per-recommendation pass `if (!rec.priority) rec.priority = impactScore -
effortScore`.  `!rec.priority` is JS falsiness: an absent/null priority *and* a
priority equal to 0 both trigger the recomputation. -/
def backfillPriority (rec : RawRec) : JRec :=
  let p : ℤ :=
    match rec.priority with
    | some p => if p = 0 then impactScoreOf rec.impact - effortScoreOf rec.effort else p
    | none => impactScoreOf rec.impact - effortScoreOf rec.effort
  { title := rec.title, description := rec.description, category := rec.category
    impact := rec.impact, effort := rec.effort, priority := p }

/-- `recommendations.sort((a, b) => b.priority - a.priority)`.  ES2019 requires
`Array.prototype.sort` to be stable, and with this consistent comparator the
result is the unique stable non-increasing order by priority, which is exactly
`mergeSort` with `le a b := b.priority ≤ a.priority`. -/
def sortRecsJS (recs : List JRec) : List JRec :=
  recs.mergeSort fun a b => decide (b.priority ≤ a.priority)

/-! ### Recommender fallback (gemini.js `generateFallbackRecommendations`) -/

/-- The generic recommendation appended when every rule produced nothing. -/
def genericUserTestingRec : JRec :=
  { title := "Lakukan User Testing"
    description := "Meskipun tidak ada masalah kritis, selalu ada ruang untuk perbaikan. Lakukan user testing untuk mendapat feedback langsung."
    category := "general", impact := "medium", effort := "medium", priority := 0 }

structure RecOut where
  recommendations : List JRec
deriving Repr, DecidableEq

def generateFallbackRecommendations (data : RecData) : RecOut :=
  let issues := data.issues
  let scores := data.scores
  let details := data.details
  let contentIssueCount := (issues.filter fun i => i.category == "content").length
  let layoutIssueCount := (issues.filter fun i => i.category == "layout").length
  let ctaIssueCount := (issues.filter fun i => i.category == "cta").length
  let accessibilityIssueCount := (issues.filter fun i => i.category == "accessibility").length
  let contentRecs : List JRec :=
    if 0 < contentIssueCount ∨ scores.content < 70 then
      (if !details.content.has_h1 then
        [{ title := "Tambahkan Heading Utama (H1)"
           description := "Setiap halaman harus memiliki satu H1 yang jelas dan deskriptif yang menjelaskan tujuan halaman kepada user dan search engine."
           category := "content", impact := "high", effort := "low", priority := 2 }] else [])
      ++ (if scores.content < 60 then
        [{ title := "Perbaiki Struktur Konten"
           description := "Gunakan heading hierarkis (H1, H2, H3) untuk mengorganisir konten. Pastikan meta description ada dan informatif (50-160 karakter)."
           category := "content", impact := "high", effort := "medium", priority := 1 }] else [])
    else []
  let layoutRecs : List JRec :=
    if 0 < layoutIssueCount ∨ scores.layout < 70 then
      (if details.layout.multiple_h1 then
        [{ title := "Gunakan Hanya Satu H1"
           description := "Hapus H1 duplikat dan gunakan H2/H3 untuk sub-heading. Ini membantu struktur halaman lebih jelas."
           category := "layout", impact := "medium", effort := "low", priority := 1 }] else [])
      ++ (if scores.layout < 60 then
        [{ title := "Tingkatkan Hierarki Visual"
           description := "Gunakan ukuran font, warna, dan spacing yang berbeda untuk membuat hierarki visual yang jelas. Prioritaskan konten penting di atas fold."
           category := "layout", impact := "high", effort := "medium", priority := 1 }] else [])
    else []
  let ctaRecs : List JRec :=
    if 0 < ctaIssueCount ∨ scores.cta < 70 then
      (if details.cta.primary_cta_count = 0 then
        [{ title := "Tambahkan Call-to-Action Utama"
           description := "Buat tombol CTA yang menonjol dengan teks aksi yang spesifik (contoh: \"Mulai Gratis\", \"Daftar Sekarang\"). Tempatkan di posisi yang mudah dilihat."
           category := "cta", impact := "high", effort := "low", priority := 2 }] else [])
      ++ (if scores.cta < 60 then
        [{ title := "Optimalkan CTA"
           description := "Gunakan kata kerja yang jelas, buat tombol kontras dengan background, dan batasi jumlah CTA per halaman (maksimal 2-3 CTA utama)."
           category := "cta", impact := "high", effort := "low", priority := 2 }] else [])
    else []
  let accessibilityRecs : List JRec :=
    if 0 < accessibilityIssueCount ∨ scores.accessibility < 70 then
      (if 0 < details.accessibility.low_contrast_count then
        [{ title := "Perbaiki Kontras Warna"
           description := "Pastikan rasio kontras antara teks dan background minimal 4.5:1 untuk teks normal dan 3:1 untuk teks besar (sesuai WCAG AA)."
           category := "accessibility", impact := "high", effort := "medium", priority := 1 }] else [])
      ++ (if (match details.accessibility.missing_alt_percentage with
              | some p => decide (50 < p)
              | none => false) then
        [{ title := "Tambahkan Alt Text pada Gambar"
           description := "Semua gambar informatif harus memiliki alt text yang menjelaskan konten gambar untuk screen reader dan SEO."
           category := "accessibility", impact := "medium", effort := "low", priority := 1 }] else [])
      ++ (if details.accessibility.body_font_size < 14 then
        [{ title := "Tingkatkan Ukuran Font"
           description := "Gunakan minimal 16px untuk body text agar mudah dibaca, terutama di perangkat mobile."
           category := "accessibility", impact := "medium", effort := "low", priority := 1 }] else [])
    else []
  let recs1 := contentRecs ++ layoutRecs ++ ctaRecs ++ accessibilityRecs
  let recs2 := recs1 ++
    (if scores.content < 50 ∧ (recs1.filter fun r => r.category == "content").length = 0 then
      [{ title := "Audit Konten Menyeluruh"
         description := "Lakukan review lengkap struktur konten: heading, paragraf, meta tags. Pastikan konten relevan dan mudah dipindai."
         category := "content", impact := "high", effort := "high", priority := 0 }] else [])
  let recs3 := recs2 ++
    (if scores.layout < 50 ∧ (recs2.filter fun r => r.category == "layout").length = 0 then
      [{ title := "Redesign Layout"
         description := "Pertimbangkan redesign layout untuk meningkatkan usability: gunakan grid system, white space yang cukup, dan visual hierarchy yang jelas."
         category := "layout", impact := "high", effort := "high", priority := 0 }] else [])
  let recs4 := recs3 ++ (if recs3.length = 0 then [genericUserTestingRec] else [])
  { recommendations := sortRecsJS recs4 }

/-! ### Stage calls and the orchestrator (gemini.js) -/

/-- `callAnalyzer`: a gateway/parse failure (`none`) or a missing/non-array
`issues` field routes to the analyzer fallback; otherwise
`{ issues: parsed.issues || [], strengths: parsed.strengths || [] }`. -/
def callAnalyzer (resp : Option ParsedAnalyzer) (data : AnalyzerData) : AnalysisOut :=
  match resp with
  | some parsed =>
    match parsed.issues with
    | some iss => { issues := iss, strengths := parsed.strengths.getD [] }
    | none => generateFallbackAnalysis data
  | none => generateFallbackAnalysis data

/-- `callStoryteller`: free text, trimmed; only a transport failure routes to
the storyteller fallback. -/
def callStoryteller (resp : Option String) (data : StoryData) : String :=
  match resp with
  | some text => String.mk (trimChars text.data)
  | none => generateFallbackNarrative data

/-- `callRecommender`: validation then priority back-fill then the descending
stable sort; any failure routes to the recommender fallback. -/
def callRecommender (resp : Option ParsedRecommender) (data : RecData) : RecOut :=
  match resp with
  | some parsed =>
    match parsed.recommendations with
    | some recs => { recommendations := sortRecsJS (recs.map backfillPriority) }
    | none => generateFallbackRecommendations data
  | none => generateFallbackRecommendations data

/-- One stage response per stage; `none` everywhere models a model gateway that
is unreachable for all three stages. -/
structure GatewayResponses where
  analyzer : Option ParsedAnalyzer := none
  storyteller : Option String := none
  recommender : Option ParsedRecommender := none

def gwAllFail : GatewayResponses := {}

structure AIResult where
  analysis : AnalysisOut
  narrative : String
  recommendations : List JRec
  success : Bool

/-- `runAIAnalysis` of gemini.js.  Each stage call absorbs its own failure via
its fallback synthesizer, so the orchestrator is a total function: no AI-stage
failure reaches the caller (the outer `catch` rethrows only exceptions escaping
a stage call, and none can). -/
def runAIAnalysis (gw : GatewayResponses) (crawledData : PageModel)
    (scoringResult : ScoringResult) : AIResult :=
  let analysis := callAnalyzer gw.analyzer
    { scores := scoringResult.scores, flags := scoringResult.flags
      details := scoringResult.details, crawledData := crawledData }
  let narrative := callStoryteller gw.storyteller
    { scores := scoringResult.scores, issues := analysis.issues
      strengths := analysis.strengths, crawledData := crawledData }
  let recommendations := callRecommender gw.recommender
    { issues := analysis.issues, scores := scoringResult.scores
      details := scoringResult.details, crawledData := crawledData }
  { analysis := analysis, narrative := narrative
    recommendations := recommendations.recommendations, success := true }

/-! ### PageSpeed enrichment (pagespeed.js).

A `getPageSpeedScore` call is `Option PSResult`: `none` is the `null` returned
on any transport/HTTP/timeout failure (the `Promise.allSettled` branch feeding
`getCombinedPageSpeedScore` likewise degrades each call to `null`). -/

structure PSScores where
  performance : ℤ := 0
  accessibility : ℤ := 0
  bestPractices : ℤ := 0
  seo : ℤ := 0
deriving Repr, DecidableEq

structure PSMetrics where
  fcp : ℚ := 0
  lcp : ℚ := 0
  cls : ℚ := 0
  tbt : ℚ := 0
  si : ℚ := 0
deriving Repr, DecidableEq

structure Opportunity where
  id : String := ""
  title : String := ""
  description : String := ""
  savings : ℚ := 0
deriving Repr, DecidableEq

structure PSResult where
  scores : PSScores := {}
  metrics : PSMetrics := {}
  opportunities : List Opportunity := []
  strategy : String := ""
deriving Repr, DecidableEq

/-- A lighthouse audit entry; `score := none` models `score: null` (and for the
opportunity filter a missing `score`, which also fails `score < 1`). -/
structure RawAudit where
  title : String := ""
  description : String := ""
  score : Option ℚ := none
  numericValue : Option ℚ := none

/-- The parts of the PageSpeed API response read by `parsePageSpeedData`:
category scores on the 0–1 scale and the audit map. -/
structure LighthouseRaw where
  performanceScore : ℚ := 0
  accessibilityScore : ℚ := 0
  bestPracticesScore : ℚ := 0
  seoScore : ℚ := 0
  audits : String → Option RawAudit := fun _ => none
  analysisUTCTimestamp : String := ""

def opportunityAuditIds : List String :=
  ["render-blocking-resources", "unused-css-rules", "unused-javascript",
   "modern-image-formats", "offscreen-images", "unminified-css",
   "unminified-javascript"]

/-- The opportunity list before sorting: fixed audit ids, kept when the audit
exists with a non-null score below 1; `savings = numericValue || 0`. -/
def rawOpportunities (raw : LighthouseRaw) : List Opportunity :=
  opportunityAuditIds.filterMap fun auditId =>
    match raw.audits auditId with
    | some audit =>
      match audit.score with
      | some sc =>
        if sc < 1 then
          some { id := auditId, title := audit.title, description := audit.description
                 savings := audit.numericValue.getD 0 }
        else none
      | none => none
    | none => none

/-- `opportunities.sort((a, b) => b.savings - a.savings)`: stable descending. -/
def sortOppsJS (l : List Opportunity) : List Opportunity :=
  l.mergeSort fun a b => decide (b.savings ≤ a.savings)

def parsePageSpeedData (raw : LighthouseRaw) : PSResult :=
  { scores := {
      performance := jsRound (raw.performanceScore * 100)
      accessibility := jsRound (raw.accessibilityScore * 100)
      bestPractices := jsRound (raw.bestPracticesScore * 100)
      seo := jsRound (raw.seoScore * 100) }
    metrics := {
      fcp := ((raw.audits "first-contentful-paint").bind fun a => a.numericValue).getD 0
      lcp := ((raw.audits "largest-contentful-paint").bind fun a => a.numericValue).getD 0
      cls := ((raw.audits "cumulative-layout-shift").bind fun a => a.numericValue).getD 0
      tbt := ((raw.audits "total-blocking-time").bind fun a => a.numericValue).getD 0
      si := ((raw.audits "speed-index").bind fun a => a.numericValue).getD 0 }
    opportunities := (sortOppsJS (rawOpportunities raw)).take 3
    strategy := raw.analysisUTCTimestamp }

/-- `average(...values)`: drop `null`s, `null` when nothing remains, else the
rounded mean. -/
def averageJS (values : List (Option ℤ)) : Option ℤ :=
  let validValues := values.filterMap id
  if validValues.length = 0 then none
  else some (jsRound ((validValues.sum : ℚ) / (validValues.length : ℚ)))

structure AvgScores where
  performance : Option ℤ := none
  accessibility : Option ℤ := none
  bestPractices : Option ℤ := none
  seo : Option ℤ := none
deriving Repr, DecidableEq

structure CombinedPS where
  mobile : Option PSResult := none
  desktop : Option PSResult := none
  average : AvgScores := {}
  overallScore : ℤ := 0
  hasBothResults : Bool := false
deriving Repr, DecidableEq

/-- `getCombinedPageSpeedScore`: `null` when both calls failed, otherwise
field-by-field averaging ignoring `null`s; `overallScore` is the rounded
average performance (`Math.round` of an already-rounded integer). -/
def getCombinedPageSpeedScore (mobile desktop : Option PSResult) : Option CombinedPS :=
  if mobile.isNone ∧ desktop.isNone then none
  else
    let avgScores : AvgScores := {
      performance := averageJS [mobile.map fun m => m.scores.performance,
                                desktop.map fun d => d.scores.performance]
      accessibility := averageJS [mobile.map fun m => m.scores.accessibility,
                                  desktop.map fun d => d.scores.accessibility]
      bestPractices := averageJS [mobile.map fun m => m.scores.bestPractices,
                                  desktop.map fun d => d.scores.bestPractices]
      seo := averageJS [mobile.map fun m => m.scores.seo,
                        desktop.map fun d => d.scores.seo] }
    some { mobile := mobile, desktop := desktop, average := avgScores
           overallScore := (avgScores.performance.map fun v => jsRound (v : ℚ)).getD 0
           hasBothResults := mobile.isSome && desktop.isSome }

/-! ### JSON response recovery (prompts.js `parseJSONResponse`).

`JSON.parse` itself is abstracted as a parameter `jparse` — the function under
study is the marker stripping and brace-delimited extraction, after which the
very same substring is handed to `JSON.parse` in both the fenced and the
unfenced case.  A thrown `JSON.parse` error and the explicit

`No JSON object found in response` error both land in the surrounding `catch`,
modelled by `Option.none`. -/

def backquote : Char := Char.ofNat 96

def lbrace : Char := Char.ofNat 123

def rbrace : Char := Char.ofNat 125

/-- One global regex replacement pass `s.replace(/<pat>\n?/g, '')` for a
literal pattern `p0 :: p`: scan left to right, removing each occurrence of the
pattern together with one optional trailing newline (the regex `\n?` is
greedy), resuming after the removed text. -/
def stripPat (p0 : Char) (p : List Char) : List Char → List Char
  | [] => []
  | c :: rest =>
    if (p0 :: (p ++ ['\n'])).isPrefixOf (c :: rest) then
      stripPat p0 p (rest.drop (p.length + 1))
    else if (p0 :: p).isPrefixOf (c :: rest) then
      stripPat p0 p (rest.drop p.length)
    else c :: stripPat p0 p rest
termination_by s => s.length
decreasing_by
  all_goals simp [List.length_drop]
  all_goals omega

/-- `text.trim()` followed by the two marker-removal passes
`replace(/```json\n?/g, '')` and `replace(/```\n?/g, '')`. -/
def cleanFences (text : List Char) : List Char :=
  stripPat backquote [backquote, backquote]
    (stripPat backquote [backquote, backquote, 'j', 's', 'o', 'n'] (trimChars text))

/-- `indexOf` for one character (`-1` becomes `none`). -/
def indexOfJS (c : Char) (l : List Char) : Option ℕ :=
  l.findIdx? fun x => x = c

/-- `lastIndexOf` for one character. -/
def lastIndexOfJS (c : Char) (l : List Char) : Option ℕ :=
  (indexOfJS c l.reverse).map fun i => l.length - 1 - i

/-- `String.prototype.substring(i, j)` for in-range arguments: swaps the
endpoints when `i > j`. -/
def substringJS (l : List Char) (i j : ℕ) : List Char :=
  if i ≤ j then (l.drop i).take (j - i) else (l.drop j).take (i - j)

/-- Locate the first `{` and the last `}` of the cleaned text and cut out
`substring(start, end + 1)`; `none` when either brace is missing. -/
def extractJsonCandidate (cleaned : List Char) : Option (List Char) :=
  match indexOfJS lbrace cleaned, lastIndexOfJS rbrace cleaned with
  | some start, some stop => some (substringJS cleaned start (stop + 1))
  | _, _ => none

/-- `parseJSONResponse` of prompts.js, with `JSON.parse` abstracted as
`jparse`. -/
def parseJSONResponse {α : Type} (jparse : List Char → Option α) (text : String) : Option α :=
  (extractJsonCandidate (cleanFences text.data)).bind jparse

/-- Wrapping a text in fenced code-block markup, the way the model decorates
its JSON answers. -/
def wrapFenceJson (t : String) : String := "```json\n" ++ t ++ "\n```"

/-- Concrete PageModel with no H1 used to witness `claim8_no_h1_zero_credit`. -/
def pageNoH1 : PageModel :=
  { title := "Halaman uji", headings := { h1 := [], h2 := ["Bagian"] } }

/-- Concrete analyzer-fallback input witnessing `claim5_analyzer_fallback`:
no primary CTA, best sub-score 65. -/
def analyzerDataW : AnalyzerData :=
  { scores := { content := 65, layout := 0, cta := 0, accessibility := 0, total := 20 }
    flags := { no_primary_cta := true }
    details := {} }

/-- Scoring result used to witness `claim2_allfail_fallback_amended`. -/
def scoringResultW : ScoringResult :=
  { scores := { content := 55, layout := 55, cta := 55, accessibility := 65, total := 57 }
    flags := {}
    details := {} }

/-- A fully crawlable page whose four sub-scores are all 55 and whose flags
are all false: one good H1 plus an H2, a short meta description, three
paragraphs, four one-word buttons, no title, text ratio 12%, font size 16,
no images, no forms, no colour pairs. -/
def data55 : PageModel :=
  { url := "http://example.com"
    title := ""
    meta_description := "Deskripsi singkat halaman"
    headings := { h1 := ["Selamat datang di halaman kami"], h2 := ["Bagian"], h3 := [] }
    paragraphs := ["Paragraf pertama yang cukup panjang untuk dihitung",
                   "Paragraf kedua yang cukup panjang untuk dihitung",
                   "Paragraf ketiga yang cukup panjang untuk dihitung"]
    links := []
    buttons := [{ text := "Kirim" }, { text := "Kirim" }, { text := "Kirim" }, { text := "Kirim" }]
    forms := []
    images := []
    css_summary := { body_font_size_px := 16, color_pairs_sample := [] }
    text_stats := { text_ratio_pct := 12 } }

/-- Concrete input for the witness of `claim3_empty_issues_generic_amended`. -/
def recDataHigh : RecData :=
  { issues := []
    scores := { content := 70, layout := 70, cta := 70, accessibility := 70, total := 70 }
    details := {} }

/-- Recommender-fallback input with an empty issue list but a low content
score (and `has_h1` known, so the H1 rule does not fire). -/
def recDataLow : RecData :=
  { issues := []
    scores := { content := 40, layout := 100, cta := 100, accessibility := 100, total := 85 }
    details := { content := { has_h1 := true } } }

/-- Recommendations used in the witness of `claim4_recommender_priority_sort`:
one without a priority (high impact, low effort) and one with priority 5. -/
def rawRecNoPriority : RawRec :=
  { title := "Perjelas CTA utama", description := "Gunakan teks aksi spesifik."
    category := "cta", impact := "high", effort := "low", priority := none }

def rawRecWithPriority : RawRec :=
  { title := "Perbaiki kontras", description := "Naikkan rasio kontras."
    category := "accessibility", impact := "medium", effort := "medium", priority := some 5 }

/-- Concrete recommendation with an explicit priority 0. -/
def rawRecZeroPriority : RawRec :=
  { title := "Tambahkan H1", description := "Tambahkan heading utama."
    category := "content", impact := "high", effort := "low", priority := some 0 }

/-! ## Claims -/

theorem clampScore_nonneg (x : ℤ) : 0 ≤ clampScore x := le_max_left _ _

theorem clampScore_le_100 (x : ℤ) : clampScore x ≤ 100 := by
  unfold clampScore
  have h : min 100 x ≤ 100 := min_le_left _ _
  omega

theorem jsRound_intCast (n : ℤ) : jsRound (n : ℚ) = n := by
  unfold jsRound
  rw [add_comm]
  rw [Int.floor_add_int]
  norm_num

/-- C1: for every well-formed PageModel, `calculateScores` returns four
sub-scores (content, layout, cta, accessibility) that are each integers in
[0, 100] after clamping, and a total equal to
`round(0.30*content + 0.25*layout + 0.25*cta + 0.20*accessibility)`, rounded to
the nearest integer half-up. -/
theorem claim1_scores_bounds_and_total (data : PageModel) :
    (0 ≤ (calculateScores data).scores.content ∧ (calculateScores data).scores.content ≤ 100) ∧
    (0 ≤ (calculateScores data).scores.layout ∧ (calculateScores data).scores.layout ≤ 100) ∧
    (0 ≤ (calculateScores data).scores.cta ∧ (calculateScores data).scores.cta ≤ 100) ∧
    (0 ≤ (calculateScores data).scores.accessibility ∧
      (calculateScores data).scores.accessibility ≤ 100) ∧
    (calculateScores data).scores.total =
      jsRound (0.30 * ((calculateScores data).scores.content : ℚ)
        + 0.25 * ((calculateScores data).scores.layout : ℚ)
        + 0.25 * ((calculateScores data).scores.cta : ℚ)
        + 0.20 * ((calculateScores data).scores.accessibility : ℚ)) := by
  refine ⟨⟨?_, ?_⟩, ⟨?_, ?_⟩, ⟨?_, ?_⟩, ⟨?_, ?_⟩, ?_⟩
  · exact clampScore_nonneg _
  · exact clampScore_le_100 _
  · exact clampScore_nonneg _
  · exact clampScore_le_100 _
  · exact clampScore_nonneg _
  · exact clampScore_le_100 _
  · exact clampScore_nonneg _
  · exact clampScore_le_100 _
  · show jsRound (((calculateContentScore data).score : ℚ) * 0.30
        + ((calculateLayoutScore data).score : ℚ) * 0.25
        + ((calculateCTAScore data).score : ℚ) * 0.25
        + ((calculateAccessibilityScore data).score : ℚ) * 0.20)
      = jsRound (0.30 * ((calculateContentScore data).score : ℚ)
        + 0.25 * ((calculateLayoutScore data).score : ℚ)
        + 0.25 * ((calculateCTAScore data).score : ℚ)
        + 0.20 * ((calculateAccessibilityScore data).score : ℚ))
    congr 1
    ring

/-- C8: for every PageModel whose h1 heading list is empty, `calculateScores`
sets `flags.no_h1 = true`, the content sub-score receives 0 of the H1 points
(no presence, length, or action-verb credit), and the layout heading block
awards 0 points for the H1 count — the `single_h1` credit of 15 is not
granted. -/
theorem claim8_no_h1_zero_credit (data : PageModel) (h : data.headings.h1 = []) :
    (calculateScores data).flags.no_h1 = true ∧
    contentH1Points data = 0 ∧
    layoutH1CountPoints data = 0 ∧
    (calculateScores data).details.layout.single_h1 = false := by
  refine ⟨?_, ?_, ?_, ?_⟩
  · show decide (data.headings.h1.length = 0) = true
    simp [h]
  · unfold contentH1Points
    simp [h]
  · unfold layoutH1CountPoints
    simp [h]
  · show decide (data.headings.h1.length = 1) = false
    simp [h]

theorem claim8_no_h1_zero_credit_witness :
    (calculateScores pageNoH1).flags.no_h1 = true ∧
    contentH1Points pageNoH1 = 0 ∧
    layoutH1CountPoints pageNoH1 = 0 ∧
    (calculateScores pageNoH1).details.layout.single_h1 = false :=
  claim8_no_h1_zero_credit pageNoH1 rfl

theorem append_guaranteed_ne_nil {α : Type} [DecidableEq α] (b : List α) (g : α)
    (c : Prop) [Decidable c] (hc : c) :
    b ++ (if b = [] ∧ c then [g] else []) ≠ [] := by
  by_cases hb : b = []
  · subst hb
    simp [hc]
  · simp [hb]

/-- C5: the Analyzer fallback returns at least one strength whenever the
maximum of the four sub-scores is ≥ 60, and its issue list contains the
critical no-primary-CTA issue whenever `flags.no_primary_cta` is true,
regardless of the total score. -/
theorem claim5_analyzer_fallback (data : AnalyzerData) :
    (60 ≤ highestSubScore data.scores → (generateFallbackAnalysis data).strengths ≠ []) ∧
    (data.flags.no_primary_cta = true →
      ctaCriticalIssue ∈ (generateFallbackAnalysis data).issues) := by
  constructor
  · intro h60
    show fallbackStrengths data.scores ≠ []
    unfold fallbackStrengths
    exact append_guaranteed_ne_nil _ _ _ h60
  · intro hcta
    show ctaCriticalIssue ∈ fallbackContentIssues _ _ ++ fallbackLayoutIssues _ _
      ++ fallbackCtaIssues _ _ ++ fallbackAccessibilityIssues _ _ ++ fallbackGeneralIssues _
    unfold fallbackCtaIssues
    simp [hcta]

theorem claim5_analyzer_fallback_witness :
    (generateFallbackAnalysis analyzerDataW).strengths ≠ [] ∧
    ctaCriticalIssue ∈ (generateFallbackAnalysis analyzerDataW).issues :=
  ⟨(claim5_analyzer_fallback analyzerDataW).1 (by decide),
   (claim5_analyzer_fallback analyzerDataW).2 rfl⟩

theorem fallbackStrengths_ne_nil (scores : ScoreSet) (h : 60 ≤ highestSubScore scores) :
    fallbackStrengths scores ≠ [] := by
  unfold fallbackStrengths
  exact append_guaranteed_ne_nil _ _ _ h

theorem append_if_empty_length_pos {α : Type} (l : List α) (g : α) :
    0 < (l ++ (if l.length = 0 then [g] else [])).length := by
  by_cases h : l = []
  · subst h
    simp
  · have hl : l.length ≠ 0 := by
      simpa [List.length_eq_zero] using h
    simp only [if_neg hl, List.append_nil]
    omega

theorem generateFallbackRecommendations_ne_nil (d : RecData) :
    (generateFallbackRecommendations d).recommendations ≠ [] := by
  show sortRecsJS _ ≠ []
  apply List.ne_nil_of_length_pos
  rw [sortRecsJS, List.length_mergeSort]
  exact append_if_empty_length_pos _ genericUserTestingRec

theorem str_append_left_ne_empty (a b : String) (h : a ≠ "") : a ++ b ≠ "" := by
  intro hab
  apply h
  have hd := congrArg String.data hab
  have hap : (a ++ b).data = a.data ++ b.data := rfl
  rw [hap] at hd
  have ha : a.data = [] := (List.append_eq_nil.mp hd).1
  cases a with
  | mk d => cases ha; rfl

theorem narrativeOpening_ne_empty (score : ℤ) : narrativeOpening score ≠ "" := by
  unfold narrativeOpening
  split
  · decide
  split
  · decide
  split
  · decide
  · decide

theorem generateFallbackNarrative_ne_nil (d : StoryData) :
    generateFallbackNarrative d ≠ "" := by
  simp only [generateFallbackNarrative]
  exact str_append_left_ne_empty _ _ (str_append_left_ne_empty _ _
    (str_append_left_ne_empty _ _ (str_append_left_ne_empty _ _
      (narrativeOpening_ne_empty _))))

/-- C2 (amended): when the model gateway is unreachable (or returns invalid
responses) for all three stages, every stage output is produced by its
deterministic FallbackSynthesizer, `runAIAnalysis` returns normally (it never
propagates an AI-stage failure to the caller: it is a total function of the
stage responses), the narrative is non-empty and at least one recommendation
is returned — all unconditionally; the analyzer strengths are non-empty
whenever the best sub-score is at least 60, but `analysis.issues` and
`analysis.strengths` may *both* be empty (see `claim2_counterexample`), so
only the original "non-empty issues (or strengths)" part needs this
best-sub-score condition. -/
theorem claim2_allfail_fallback_amended (crawledData : PageModel) (sr : ScoringResult) :
    (runAIAnalysis gwAllFail crawledData sr).analysis =
      generateFallbackAnalysis ⟨sr.scores, sr.flags, sr.details, crawledData⟩ ∧
    (runAIAnalysis gwAllFail crawledData sr).narrative =
      generateFallbackNarrative
        ⟨sr.scores,
         (generateFallbackAnalysis ⟨sr.scores, sr.flags, sr.details, crawledData⟩).issues,
         (generateFallbackAnalysis ⟨sr.scores, sr.flags, sr.details, crawledData⟩).strengths,
         crawledData⟩ ∧
    (runAIAnalysis gwAllFail crawledData sr).recommendations =
      (generateFallbackRecommendations
        ⟨(generateFallbackAnalysis ⟨sr.scores, sr.flags, sr.details, crawledData⟩).issues,
         sr.scores, sr.details, crawledData⟩).recommendations ∧
    (runAIAnalysis gwAllFail crawledData sr).narrative ≠ "" ∧
    (runAIAnalysis gwAllFail crawledData sr).recommendations ≠ [] ∧
    (60 ≤ highestSubScore sr.scores →
      (runAIAnalysis gwAllFail crawledData sr).analysis.strengths ≠ []) := by
  refine ⟨rfl, rfl, rfl, ?_, ?_, ?_⟩
  · exact generateFallbackNarrative_ne_nil _
  · exact generateFallbackRecommendations_ne_nil _
  · intro h
    show fallbackStrengths sr.scores ≠ []
    exact fallbackStrengths_ne_nil sr.scores h

theorem claim2_allfail_fallback_amended_witness :
    (runAIAnalysis gwAllFail {} scoringResultW).narrative ≠ "" ∧
    (runAIAnalysis gwAllFail {} scoringResultW).recommendations ≠ [] ∧
    (runAIAnalysis gwAllFail {} scoringResultW).analysis.strengths ≠ [] := by
  have h := claim2_allfail_fallback_amended {} scoringResultW
  exact ⟨h.2.2.2.1, h.2.2.2.2.1, h.2.2.2.2.2 (by decide)⟩

set_option maxRecDepth 8192 in
/-- C2 counterexample: with the gateway unreachable for all three stages and
the real scoring result of `data55` (all four sub-scores 55, no flags set),
`runAIAnalysis` returns an analysis whose issue list *and* strength list are
both empty, contradicting the claimed "non-empty `issues` (or `strengths`)". -/
theorem claim2_counterexample :
    (runAIAnalysis gwAllFail data55 (calculateScores data55)).analysis.issues = [] ∧
    (runAIAnalysis gwAllFail data55 (calculateScores data55)).analysis.strengths = [] := by
  constructor
  · decide
  · decide

/-- C3 (amended): for every Recommender-fallback input whose issue list is
empty *and whose four sub-scores are all at least 70* (so that no
score-driven rule fires), the fallback returns exactly one generic
recommendation — the "Lakukan User Testing" item — and that recommendation has
priority 0.  Without the sub-score hypothesis the claim fails, see
`claim3_counterexample`. -/
theorem claim3_empty_issues_generic_amended (d : RecData)
    (hiss : d.issues = []) (hc : 70 ≤ d.scores.content) (hl : 70 ≤ d.scores.layout)
    (ht : 70 ≤ d.scores.cta) (ha : 70 ≤ d.scores.accessibility) :
    (generateFallbackRecommendations d).recommendations = [genericUserTestingRec] ∧
    genericUserTestingRec.priority = 0 := by
  have hc' : ¬(d.scores.content < 70) := not_lt.mpr hc
  have hl' : ¬(d.scores.layout < 70) := not_lt.mpr hl
  have ht' : ¬(d.scores.cta < 70) := not_lt.mpr ht
  have ha' : ¬(d.scores.accessibility < 70) := not_lt.mpr ha
  have hc2 : ¬(d.scores.content < 50) := by omega
  have hl2 : ¬(d.scores.layout < 50) := by omega
  refine ⟨?_, rfl⟩
  simp [generateFallbackRecommendations, hiss, hc', hl', ht', ha', hc2, hl2,
    sortRecsJS, List.mergeSort_singleton]

theorem claim3_empty_issues_generic_amended_witness :
    (generateFallbackRecommendations recDataHigh).recommendations = [genericUserTestingRec] ∧
    genericUserTestingRec.priority = 0 :=
  claim3_empty_issues_generic_amended recDataHigh rfl (by decide) (by decide)
    (by decide) (by decide)

/-- C3 counterexample: on `recDataLow` the issue list is empty, yet the
Recommender fallback returns the score-driven "Perbaiki Struktur Konten"
recommendation with priority 1 — not the generic "run user testing" item with
priority 0 — so "empty issue list ⇒ exactly one generic recommendation with
priority 0" is false as stated. -/
theorem claim3_counterexample :
    recDataLow.issues = [] ∧
    ((generateFallbackRecommendations recDataLow).recommendations.map fun r =>
      (r.title, r.priority)) = [("Perbaiki Struktur Konten", 1)] := by
  refine ⟨rfl, ?_⟩
  simp [generateFallbackRecommendations, recDataLow, sortRecsJS, List.mergeSort_singleton]

theorem recLE_trans : ∀ (a b c : JRec),
    (fun a b : JRec => decide (b.priority ≤ a.priority)) a b = true →
    (fun a b : JRec => decide (b.priority ≤ a.priority)) b c = true →
    (fun a b : JRec => decide (b.priority ≤ a.priority)) a c = true := by
  intro a b c hab hbc
  simp only [decide_eq_true_eq] at *
  omega

theorem recLE_total : ∀ (a b : JRec),
    ((fun a b : JRec => decide (b.priority ≤ a.priority)) a b
      || (fun a b : JRec => decide (b.priority ≤ a.priority)) b a) = true := by
  intro a b
  rcases Int.le_total b.priority a.priority with h | h
  · simp [h]
  · simp [h]

theorem sortRecsJS_pairwise (l : List JRec) :
    (sortRecsJS l).Pairwise fun a b => b.priority ≤ a.priority := by
  have h := List.sorted_mergeSort recLE_trans recLE_total l
  exact h.imp fun {a b} hab => by simpa using hab

theorem sortRecsJS_stable_filter (l : List JRec) (p : ℤ) :
    (sortRecsJS l).filter (fun r => decide (r.priority = p))
      = l.filter fun r => decide (r.priority = p) := by
  have hall : ∀ a ∈ l.filter (fun r => decide (r.priority = p)), a.priority = p := by
    intro a ha
    simpa using List.of_mem_filter ha
  have hpw : (l.filter (fun r => decide (r.priority = p))).Pairwise
      fun a b : JRec => decide (b.priority ≤ a.priority) = true := by
    apply List.pairwise_of_forall_mem_list
    intro a ha b hb
    have := hall a ha
    have := hall b hb
    simp only [decide_eq_true_eq]
    omega
  have hsub : List.Sublist (l.filter fun r => decide (r.priority = p)) (sortRecsJS l) :=
    List.sublist_mergeSort recLE_trans recLE_total hpw (List.filter_sublist l)
  have h1 : ((l.filter fun r => decide (r.priority = p)).filter
      fun r => decide (r.priority = p)) = l.filter fun r => decide (r.priority = p) :=
    List.filter_eq_self.mpr fun a ha => by simp [hall a ha]
  have h2 : List.Sublist (l.filter fun r => decide (r.priority = p))
      ((sortRecsJS l).filter fun r => decide (r.priority = p)) := by
    have := hsub.filter fun r => decide (r.priority = p)
    rwa [h1] at this
  have hlen : ((sortRecsJS l).filter fun r => decide (r.priority = p)).length
      = (l.filter fun r => decide (r.priority = p)).length :=
    ((List.mergeSort_perm l _).filter _).length_eq
  exact (h2.eq_of_length hlen.symm).symm

/-- C4: for every Stage3 result, on the AI path every recommendation that
omits the `priority` field is assigned `impactScore(impact) −
effortScore(effort)` (high = 3, medium = 2, low = 1); the returned list is the
back-filled list sorted non-increasingly by priority, with ties keeping their
original relative order (the equal-priority subsequence of the output equals
that of the input); and the fallback path's list is likewise sorted
non-increasingly by priority. -/
theorem claim4_recommender_priority_sort (recs : List RawRec) :
    (∀ r : RawRec, r.priority = none →
      (backfillPriority r).priority = impactScoreOf r.impact - effortScoreOf r.effort) ∧
    (∀ d : RecData, callRecommender (some { recommendations := some recs }) d =
      { recommendations := sortRecsJS (recs.map backfillPriority) }) ∧
    ((sortRecsJS (recs.map backfillPriority)).Pairwise fun a b =>
      b.priority ≤ a.priority) ∧
    (∀ p : ℤ, ((sortRecsJS (recs.map backfillPriority)).filter
        fun r => decide (r.priority = p))
      = (recs.map backfillPriority).filter fun r => decide (r.priority = p)) ∧
    (∀ d : RecData, (generateFallbackRecommendations d).recommendations.Pairwise
      fun a b => b.priority ≤ a.priority) := by
  refine ⟨?_, fun _ => rfl, sortRecsJS_pairwise _, fun p => sortRecsJS_stable_filter _ p, ?_⟩
  · intro r h
    simp [backfillPriority, h]
  · intro d
    show (sortRecsJS _).Pairwise _
    exact sortRecsJS_pairwise _

theorem claim4_recommender_priority_sort_witness :
    (backfillPriority rawRecNoPriority).priority
      = impactScoreOf rawRecNoPriority.impact - effortScoreOf rawRecNoPriority.effort ∧
    (([rawRecNoPriority, rawRecWithPriority].map backfillPriority).filter
        fun r => decide (r.priority = 2))
      = ((sortRecsJS ([rawRecNoPriority, rawRecWithPriority].map backfillPriority)).filter
        fun r => decide (r.priority = 2)) :=
  ⟨(claim4_recommender_priority_sort [rawRecNoPriority, rawRecWithPriority]).1
      rawRecNoPriority rfl,
   ((claim4_recommender_priority_sort [rawRecNoPriority, rawRecWithPriority]).2.2.2.1 2).symm⟩

/-- C10: in the Stage3 AI path, a recommendation whose priority field is
present but equal to 0 is treated exactly as if `priority` were omitted: its
priority is recomputed as `impactScore − effortScore` (the omission test
`!rec.priority` is falsiness, not absence of the field), so a model-supplied
priority of 0 is never preserved as-is. -/
theorem claim10_zero_priority_recomputed (r : RawRec) (h : r.priority = some 0) :
    (backfillPriority r).priority = impactScoreOf r.impact - effortScoreOf r.effort ∧
    backfillPriority r = backfillPriority { r with priority := none } := by
  constructor
  · simp [backfillPriority, h]
  · simp [backfillPriority, h]

theorem claim10_zero_priority_recomputed_witness :
    (backfillPriority rawRecZeroPriority).priority
      = impactScoreOf rawRecZeroPriority.impact - effortScoreOf rawRecZeroPriority.effort ∧
    backfillPriority rawRecZeroPriority
      = backfillPriority { rawRecZeroPriority with priority := none } :=
  claim10_zero_priority_recomputed rawRecZeroPriority rfl

theorem oppLE_trans : ∀ (a b c : Opportunity),
    (fun a b : Opportunity => decide (b.savings ≤ a.savings)) a b = true →
    (fun a b : Opportunity => decide (b.savings ≤ a.savings)) b c = true →
    (fun a b : Opportunity => decide (b.savings ≤ a.savings)) a c = true := by
  intro a b c hab hbc
  simp only [decide_eq_true_eq] at *
  exact le_trans hbc hab

theorem oppLE_total : ∀ (a b : Opportunity),
    ((fun a b : Opportunity => decide (b.savings ≤ a.savings)) a b
      || (fun a b : Opportunity => decide (b.savings ≤ a.savings)) b a) = true := by
  intro a b
  rcases le_total b.savings a.savings with h | h
  · simp [h]
  · simp [h]

theorem sortOppsJS_pairwise (l : List Opportunity) :
    (sortOppsJS l).Pairwise fun a b => b.savings ≤ a.savings := by
  have h := List.sorted_mergeSort oppLE_trans oppLE_total l
  exact h.imp fun {a b} hab => by simpa using hab

/-- C9: for the performance enrichment, if both the mobile and the desktop
call fail the enrichment result is null; if exactly one succeeds, each
averaged score field equals that one call's score (averaging ignores nulls)
and the overall performance equals that call's performance score with
`hasBothResults` false; and the opportunities retained by a parse are the top
3 sorted non-increasingly by estimated savings. -/
theorem claim9_pagespeed_enrichment :
    getCombinedPageSpeedScore none none = none ∧
    (∀ m : PSResult, getCombinedPageSpeedScore (some m) none =
      some { mobile := some m, desktop := none
             average := { performance := some m.scores.performance
                          accessibility := some m.scores.accessibility
                          bestPractices := some m.scores.bestPractices
                          seo := some m.scores.seo }
             overallScore := m.scores.performance
             hasBothResults := false }) ∧
    (∀ d : PSResult, getCombinedPageSpeedScore none (some d) =
      some { mobile := none, desktop := some d
             average := { performance := some d.scores.performance
                          accessibility := some d.scores.accessibility
                          bestPractices := some d.scores.bestPractices
                          seo := some d.scores.seo }
             overallScore := d.scores.performance
             hasBothResults := false }) ∧
    (∀ raw : LighthouseRaw,
      (parsePageSpeedData raw).opportunities = (sortOppsJS (rawOpportunities raw)).take 3 ∧
      ((parsePageSpeedData raw).opportunities.Pairwise fun a b => b.savings ≤ a.savings) ∧
      (parsePageSpeedData raw).opportunities.length ≤ 3) := by
  refine ⟨rfl, ?_, ?_, ?_⟩
  · intro m
    simp [getCombinedPageSpeedScore, averageJS, jsRound_intCast]
  · intro d
    simp [getCombinedPageSpeedScore, averageJS, jsRound_intCast]
  · intro raw
    refine ⟨rfl, ?_, ?_⟩
    · exact ((sortOppsJS_pairwise (rawOpportunities raw)).sublist
        (List.take_sublist 3 _))
    · show ((sortOppsJS (rawOpportunities raw)).take 3).length ≤ 3
      exact le_trans (List.length_take_le 3 _) (le_refl 3)

theorem hexDigitVal_le (ch : Char) (d : ℕ) (h : hexDigitVal ch = some d) : d ≤ 15 := by
  unfold hexDigitVal at h
  split at h
  · rename_i h1
    injection h with hd
    subst hd
    have h9 : ch.toNat ≤ 57 := by
      have h2 := h1.2
      simp only [Char.le_def, UInt32.le_def, BitVec.le_def] at h2
      exact h2
    show ch.toNat - 48 ≤ 15
    omega
  · split at h
    · rename_i h1 h2
      injection h with hd
      subst hd
      have hf : ch.toNat ≤ 102 := by
        have h3 := h2.2
        simp only [Char.le_def, UInt32.le_def, BitVec.le_def] at h3
        exact h3
      show ch.toNat - 97 + 10 ≤ 15
      omega
    · split at h
      · rename_i h1 h2 h3
        injection h with hd
        subst hd
        have hf : ch.toNat ≤ 70 := by
          have h4 := h3.2
          simp only [Char.le_def, UInt32.le_def, BitVec.le_def] at h4
          exact h4
        show ch.toNat - 65 + 10 ≤ 15
        omega
      · exact absurd h (by simp)

theorem hexPrefixVal_le_of_len1 (s : List Char) (h : s.length ≤ 1) (n : ℕ)
    (he : hexPrefixVal s = some n) : n ≤ 15 := by
  match s, h with
  | [], _ => simp [hexPrefixVal] at he
  | [ch], _ =>
    cases hd : hexDigitVal ch with
    | none => simp [hexPrefixVal, hd] at he
    | some d =>
      simp only [hexPrefixVal, hd] at he
      have hacc : hexAcc d [] = d := rfl
      rw [hacc] at he
      injection he with hn
      exact hn ▸ hexDigitVal_le ch d hd
  | ch1 :: ch2 :: rest, h => simp at h

theorem stripHexMark_length_le (l : List Char) : (stripHexMark l).length ≤ l.length := by
  unfold stripHexMark
  split <;> simp <;> omega

theorem parseIntHexChars_ge (s : List Char) (h : s.length ≤ 2) (k : ℤ)
    (he : parseIntHexChars s = some k) : -15 ≤ k := by
  unfold parseIntHexChars at he
  have hlen : (s.dropWhile isWsJS).length ≤ 2 :=
    le_trans (List.Sublist.length_le (List.dropWhile_sublist isWsJS)) h
  cases hs : s.dropWhile isWsJS with
  | nil => rw [hs] at he; simp at he
  | cons c rest =>
    rw [hs] at he
    dsimp only at he
    rw [hs] at hlen
    simp only [List.length_cons] at hlen
    by_cases hminus : c = '-'
    · rw [if_pos hminus] at he
      cases hp : hexPrefixVal (stripHexMark rest) with
      | none => rw [hp] at he; simp at he
      | some n =>
        rw [hp] at he
        injection he with hk
        have hk2 : -(n : ℤ) = k := hk
        have hslen : (stripHexMark rest).length ≤ 1 :=
          le_trans (stripHexMark_length_le rest) (by omega)
        have hn : n ≤ 15 := hexPrefixVal_le_of_len1 (stripHexMark rest) hslen n hp
        omega
    · rw [if_neg hminus] at he
      by_cases hplus : c = '+'
      · rw [if_pos hplus] at he
        cases hp : hexPrefixVal (stripHexMark rest) with
        | none => rw [hp] at he; simp at he
        | some n =>
          rw [hp] at he
          injection he with hk
          have hk2 : (n : ℤ) = k := hk
          omega
      · rw [if_neg hplus] at he
        cases hp : hexPrefixVal (stripHexMark (c :: rest)) with
        | none => rw [hp] at he; simp at he
        | some n =>
          rw [hp] at he
          injection he with hk
          have hk2 : (n : ℤ) = k := hk
          omega

theorem substrJS_len_le (l : List Char) (i : ℕ) : (substrJS l i 2).length ≤ 2 :=
  List.length_take_le _ _

theorem gammaJS_lower (c : ℚ) (h : -(15/255 : ℚ) ≤ c) : -(1/200 : ℝ) ≤ gammaJS c := by
  unfold gammaJS
  split
  · rename_i hle
    have hc : (-(15/255 : ℚ) : ℝ) ≤ (c : ℝ) := by exact_mod_cast h
    have hdiv : ((-(15/255 : ℚ) : ℝ)) / 12.92 ≤ (c : ℝ) / 12.92 :=
      (div_le_div_iff_of_pos_right (by norm_num)).mpr hc
    have hlb : -(1/200 : ℝ) ≤ ((-(15/255 : ℚ) : ℝ)) / 12.92 := by
      push_cast
      norm_num
    linarith
  · rename_i hgt
    have hc : (0.03928 : ℚ) < c := lt_of_not_ge hgt
    have hcr : ((0.03928 : ℚ) : ℝ) < (c : ℝ) := by exact_mod_cast hc
    have hval : ((0.03928 : ℚ) : ℝ) = 0.03928 := by norm_num
    have hbase : (0 : ℝ) ≤ ((c : ℝ) + 0.055) / 1.055 := by
      apply le_of_lt
      apply div_pos
      · rw [hval] at hcr
        linarith
      · norm_num
    have hr := Real.rpow_nonneg hbase (2.4 : ℝ)
    linarith

theorem getLuminance_lower (color : String) (l : ℝ) (h : getLuminance color = some l) :
    -(1/200 : ℝ) ≤ l := by
  simp only [getLuminance] at h
  split at h
  · split at h
    · rename_i r g b heq1 heq2 heq3
      injection h with hl
      subst hl
      have hr := parseIntHexChars_ge _ (substrJS_len_le _ _) _ heq1
      have hg := parseIntHexChars_ge _ (substrJS_len_le _ _) _ heq2
      have hb := parseIntHexChars_ge _ (substrJS_len_le _ _) _ heq3
      have hrq : -(15/255 : ℚ) ≤ (r : ℚ) / 255 := by
        rw [neg_div' 255 (15:ℚ)]
        exact (div_le_div_iff_of_pos_right (by norm_num)).mpr (by exact_mod_cast hr)
      have hgq : -(15/255 : ℚ) ≤ (g : ℚ) / 255 := by
        rw [neg_div' 255 (15:ℚ)]
        exact (div_le_div_iff_of_pos_right (by norm_num)).mpr (by exact_mod_cast hg)
      have hbq : -(15/255 : ℚ) ≤ (b : ℚ) / 255 := by
        rw [neg_div' 255 (15:ℚ)]
        exact (div_le_div_iff_of_pos_right (by norm_num)).mpr (by exact_mod_cast hb)
      have g1 := gammaJS_lower _ hrq
      have g2 := gammaJS_lower _ hgq
      have g3 := gammaJS_lower _ hbq
      have m1 : (0.2126 : ℝ) * (-(1/200 : ℝ)) ≤ 0.2126 * gammaJS ((r : ℚ) / 255) :=
        mul_le_mul_of_nonneg_left g1 (by norm_num)
      have m2 : (0.7152 : ℝ) * (-(1/200 : ℝ)) ≤ 0.7152 * gammaJS ((g : ℚ) / 255) :=
        mul_le_mul_of_nonneg_left g2 (by norm_num)
      have m3 : (0.0722 : ℝ) * (-(1/200 : ℝ)) ≤ 0.0722 * gammaJS ((b : ℚ) / 255) :=
        mul_le_mul_of_nonneg_left g3 (by norm_num)
      linarith
    · exact absurd h (by simp)
  · injection h with hl
    subst hl
    norm_num

theorem gammaJS_zero : gammaJS 0 = 0 := by
  unfold gammaJS
  rw [if_pos (by norm_num)]
  norm_num

theorem gammaJS_one : gammaJS 1 = 1 := by
  unfold gammaJS
  rw [if_neg (by norm_num)]
  have hb : (((1 : ℚ) : ℝ) + 0.055) / 1.055 = 1 := by norm_num
  rw [hb, Real.one_rpow]

theorem lum_black : getLuminance "#000000" = some 0 := by
  show some (0.2126 * gammaJS (((0 : ℤ) : ℚ) / 255) + 0.7152 * gammaJS (((0 : ℤ) : ℚ) / 255)
    + 0.0722 * gammaJS (((0 : ℤ) : ℚ) / 255)) = some 0
  have hch : (((0 : ℤ) : ℚ) / 255) = 0 := by norm_num
  rw [hch, gammaJS_zero]
  norm_num

theorem lum_white : getLuminance "#FFFFFF" = some 1 := by
  show some (0.2126 * gammaJS (((255 : ℤ) : ℚ) / 255) + 0.7152 * gammaJS (((255 : ℤ) : ℚ) / 255)
    + 0.0722 * gammaJS (((255 : ℤ) : ℚ) / 255)) = some 1
  have hch : (((255 : ℤ) : ℚ) / 255) = 1 := by norm_num
  rw [hch, gammaJS_one]
  norm_num

/-- C6 (amended): the contrast ratio function computes the WCAG formula (the
gamma linearization, the 0.2126/0.7152/0.0722 luminance and
`(Lmax + 0.05)/(Lmin + 0.05)` are `gammaJS`, `getLuminance` and
`calculateContrastRatioJS` above), the pair `(#000000, #FFFFFF)` has ratio
exactly 21, and any color *whose luminance is defined* — a hex color with
three parseable 2-digit channels, or a non-`#` color mapped to the neutral
luminance — paired with itself has ratio exactly 1.  For a malformed hex
color such as `#fff` the channel parse is `NaN` and the self-ratio is `NaN`
rather than 1, see `claim6_counterexample`. -/
theorem claim6_contrast_amended :
    calculateContrastRatioJS "#000000" "#FFFFFF" = some 21 ∧
    (∀ (c : String) (l : ℝ), getLuminance c = some l →
      calculateContrastRatioJS c c = some 1) := by
  constructor
  · unfold calculateContrastRatioJS
    rw [lum_black, lum_white]
    show some ((max 0 1 + 0.05) / (min 0 1 + 0.05)) = some 21
    rw [max_eq_right (by norm_num : (0:ℝ) ≤ 1), min_eq_left (by norm_num : (0:ℝ) ≤ 1)]
    norm_num
  · intro c l h
    have hb := getLuminance_lower c l h
    unfold calculateContrastRatioJS
    rw [h]
    show some ((max l l + 0.05) / (min l l + 0.05)) = some 1
    rw [max_self, min_self]
    have hpos : (0 : ℝ) < l + 0.05 := by
      have : -(1/200 : ℝ) + 0.05 = 0.045 := by norm_num
      linarith
    rw [div_self (ne_of_gt hpos)]

theorem claim6_contrast_amended_witness :
    calculateContrastRatioJS "rgb(0, 0, 0)" "rgb(0, 0, 0)" = some 1 :=
  claim6_contrast_amended.2 "rgb(0, 0, 0)" 0.5 rfl

/-- C6 counterexample: the 3-digit hex color `#fff` (a valid CSS color that
the crawler's color regex can sample) parses its third channel from the empty
substring, `parseInt('', 16)` is `NaN`, and the self-contrast ratio is `NaN`
(`none`) — not 1 — so "for any color paired with itself the ratio equals 1"
is false as stated. -/
theorem claim6_counterexample :
    calculateContrastRatioJS "#fff" "#fff" = none ∧
    calculateContrastRatioJS "#fff" "#fff" ≠ some 1 := by
  constructor
  · rfl
  · intro h
    rw [show calculateContrastRatioJS "#fff" "#fff" = none from rfl] at h
    exact Option.noConfusion h

/-! ### Fence-stripping machinery for claim C7.

The two regex passes of `parseJSONResponse` only delete characters, never
create them, and a match never contains `{` or `}` (the pattern characters are
backquotes, `json` letters and a newline).  The extraction by first `{` /
last `}` therefore only depends on the stripped text *between* the outer
braces, which is identical for the fenced and the unfenced input. -/

theorem isPrefixOf_append_self (l r : List Char) : l.isPrefixOf (l ++ r) = true := by
  induction l with
  | nil => simp [List.isPrefixOf]
  | cons a as ih => simp [List.isPrefixOf, ih]

theorem isPrefixOf_append_barrier (pat : List Char) (c : Char) :
    ∀ (u v : List Char), c ∉ pat → pat.isPrefixOf (u ++ c :: v) = pat.isPrefixOf u := by
  induction pat with
  | nil => intro u v _; cases u <;> simp [List.isPrefixOf]
  | cons p ps ih =>
    intro u v hc
    cases u with
    | nil =>
      have hpc : p ≠ c := by
        intro h
        exact hc (by simp [h])
      simp [List.isPrefixOf, hpc]
    | cons a us =>
      have hcps : c ∉ ps := fun h => hc (List.mem_cons_of_mem _ h)
      simp [List.isPrefixOf, ih us v hcps]

theorem stripPat_sublist_aux (p0 : Char) (p : List Char) :
    ∀ (n : ℕ) (l : List Char), l.length ≤ n → List.Sublist (stripPat p0 p l) l := by
  intro n
  induction n with
  | zero =>
    intro l hl
    have : l = [] := List.length_eq_zero.mp (Nat.le_zero.mp hl)
    subst this
    simp [stripPat]
  | succ n ih =>
    intro l hl
    cases l with
    | nil => simp [stripPat]
    | cons c rest =>
      simp only [List.length_cons] at hl
      rw [stripPat]
      split
      · refine List.Sublist.trans ?_ (List.sublist_cons_self c rest)
        refine List.Sublist.trans (ih _ ?_) (List.drop_sublist _ _)
        simp only [List.length_drop]
        omega
      · split
        · refine List.Sublist.trans ?_ (List.sublist_cons_self c rest)
          refine List.Sublist.trans (ih _ ?_) (List.drop_sublist _ _)
          simp only [List.length_drop]
          omega
        · exact List.Sublist.cons₂ c (ih rest (by omega))

theorem stripPat_sublist (p0 : Char) (p : List Char) (l : List Char) :
    List.Sublist (stripPat p0 p l) l :=
  stripPat_sublist_aux p0 p l.length l (le_refl _)

theorem stripPat_not_mem (p0 : Char) (p : List Char) (c : Char) (l : List Char)
    (h : c ∉ l) : c ∉ stripPat p0 p l :=
  fun hmem => h ((stripPat_sublist p0 p l).mem hmem)

theorem trimChars_sublist (l : List Char) : List.Sublist (trimChars l) l := by
  unfold trimChars
  refine List.Sublist.trans ?_ (List.dropWhile_sublist isWsJS)
  have h := (List.dropWhile_sublist (l := (l.dropWhile isWsJS).reverse) isWsJS).reverse
  simpa using h

theorem trimChars_not_mem (c : Char) (l : List Char) (h : c ∉ l) : c ∉ trimChars l :=
  fun hmem => h ((trimChars_sublist l).mem hmem)

theorem stripPat_cons_match1 (p0 : Char) (p : List Char) (c : Char) (rest : List Char)
    (h : (p0 :: (p ++ ['\n'])).isPrefixOf (c :: rest) = true) :
    stripPat p0 p (c :: rest) = stripPat p0 p (rest.drop (p.length + 1)) := by
  rw [stripPat, if_pos h]

theorem stripPat_cons_match2 (p0 : Char) (p : List Char) (c : Char) (rest : List Char)
    (h1 : (p0 :: (p ++ ['\n'])).isPrefixOf (c :: rest) = false)
    (h2 : (p0 :: p).isPrefixOf (c :: rest) = true) :
    stripPat p0 p (c :: rest) = stripPat p0 p (rest.drop p.length) := by
  rw [stripPat, if_neg (by simp [h1]), if_pos h2]

theorem stripPat_cons_nomatch (p0 : Char) (p : List Char) (c : Char) (rest : List Char)
    (h1 : (p0 :: (p ++ ['\n'])).isPrefixOf (c :: rest) = false)
    (h2 : (p0 :: p).isPrefixOf (c :: rest) = false) :
    stripPat p0 p (c :: rest) = c :: stripPat p0 p rest := by
  rw [stripPat, if_neg (by simp [h1]), if_neg (by simp [h2])]

theorem isPrefixOf_cons_head_ne (p0 : Char) (ps : List Char) (c : Char) (l : List Char)
    (h : p0 ≠ c) : (p0 :: ps).isPrefixOf (c :: l) = false := by
  simp [List.isPrefixOf, h]

theorem isPrefixOf_length_le : ∀ (l₁ l₂ : List Char), l₁.isPrefixOf l₂ = true →
    l₁.length ≤ l₂.length := by
  intro l₁
  induction l₁ with
  | nil => intro l₂ _; simp
  | cons a as ih =>
    intro l₂ h
    cases l₂ with
    | nil => simp [List.isPrefixOf] at h
    | cons b bs =>
      simp only [List.isPrefixOf, Bool.and_eq_true] at h
      have := ih bs h.2
      simp only [List.length_cons]
      omega

theorem stripPat_append_barrier_aux (p0 : Char) (p : List Char) (c : Char)
    (hc1 : c ∉ p0 :: p) (hcn : c ≠ '\n') :
    ∀ (n : ℕ) (u v : List Char), u.length ≤ n →
      stripPat p0 p (u ++ c :: v) = stripPat p0 p u ++ c :: stripPat p0 p v := by
  have hp0c : p0 ≠ c := fun h => hc1 (by simp [h])
  have hcpat1 : c ∉ p0 :: (p ++ ['\n']) := by
    intro h
    rcases List.mem_cons.mp h with h | h
    · exact hc1 (List.mem_cons.mpr (Or.inl h))
    · rcases List.mem_append.mp h with h | h
      · exact hc1 (List.mem_cons.mpr (Or.inr h))
      · simp at h
        exact hcn h
  have base : ∀ v : List Char,
      stripPat p0 p ([] ++ c :: v) = stripPat p0 p [] ++ c :: stripPat p0 p v := by
    intro v
    rw [List.nil_append,
      stripPat_cons_nomatch p0 p c v
        (isPrefixOf_cons_head_ne _ _ _ _ hp0c) (isPrefixOf_cons_head_ne _ _ _ _ hp0c)]
    rw [stripPat]
    rfl
  intro n
  induction n with
  | zero =>
    intro u v hu
    have hu0 : u = [] := List.length_eq_zero.mp (Nat.le_zero.mp hu)
    subst hu0
    exact base v
  | succ n ih =>
    intro u v hu
    cases u with
    | nil => exact base v
    | cons a us =>
      simp only [List.length_cons] at hu
      have hb1 := isPrefixOf_append_barrier (p0 :: (p ++ ['\n'])) c (a :: us) v hcpat1
      have hb2 := isPrefixOf_append_barrier (p0 :: p) c (a :: us) v hc1
      rw [List.cons_append] at hb1 hb2
      cases h1 : (p0 :: (p ++ ['\n'])).isPrefixOf (a :: us) with
      | true =>
        have hlen : p.length + 1 ≤ us.length := by
          have hpre := isPrefixOf_length_le _ _ h1
          simp only [List.length_cons, List.length_append, List.length_singleton] at hpre
          omega
        rw [List.cons_append,
          stripPat_cons_match1 p0 p a _ (by rw [hb1]; exact h1),
          stripPat_cons_match1 p0 p a _ h1,
          List.drop_append_eq_append_drop,
          Nat.sub_eq_zero_of_le hlen, List.drop_zero]
        exact ih (us.drop (p.length + 1)) v (by simp only [List.length_drop]; omega)
      | false =>
        cases h2 : (p0 :: p).isPrefixOf (a :: us) with
        | true =>
          have hlen : p.length ≤ us.length := by
            have hpre := isPrefixOf_length_le _ _ h2
            simp only [List.length_cons] at hpre
            omega
          rw [List.cons_append,
            stripPat_cons_match2 p0 p a _ (by rw [hb1]; exact h1) (by rw [hb2]; exact h2),
            stripPat_cons_match2 p0 p a _ h1 h2,
            List.drop_append_eq_append_drop,
            Nat.sub_eq_zero_of_le hlen, List.drop_zero]
          exact ih (us.drop p.length) v (by simp only [List.length_drop]; omega)
        | false =>
          rw [List.cons_append,
            stripPat_cons_nomatch p0 p a _ (by rw [hb1]; exact h1) (by rw [hb2]; exact h2),
            stripPat_cons_nomatch p0 p a _ h1 h2]
          rw [ih us v (by omega)]
          rfl

theorem stripPat_append_barrier (p0 : Char) (p : List Char) (c : Char)
    (hc1 : c ∉ p0 :: p) (hcn : c ≠ '\n') (u v : List Char) :
    stripPat p0 p (u ++ c :: v) = stripPat p0 p u ++ c :: stripPat p0 p v :=
  stripPat_append_barrier_aux p0 p c hc1 hcn u.length u v (le_refl _)

theorem stripPat_fence_open (p0 : Char) (p z : List Char) :
    stripPat p0 p ((p0 :: (p ++ ['\n'])) ++ z) = stripPat p0 p z := by
  rw [show (p0 :: (p ++ ['\n'])) ++ z = p0 :: ((p ++ ['\n']) ++ z) from rfl]
  rw [stripPat_cons_match1 p0 p p0 ((p ++ ['\n']) ++ z)
    (isPrefixOf_append_self (p0 :: (p ++ ['\n'])) z)]
  rw [List.drop_left' (by simp)]

theorem dropWhile_cons_head_false (c : Char) (l : List Char) (h : isWsJS c = false) :
    (c :: l).dropWhile isWsJS = c :: l := by
  simp [List.dropWhile_cons, h]

theorem trimChars_of_ends (x : List Char) (a b : Char)
    (ha : isWsJS a = false) (hb : isWsJS b = false) :
    trimChars (a :: (x ++ [b])) = a :: (x ++ [b]) := by
  unfold trimChars
  rw [dropWhile_cons_head_false a _ ha]
  rw [show (a :: (x ++ [b])).reverse = b :: (x.reverse ++ [a]) from by simp]
  rw [dropWhile_cons_head_false b _ hb]
  simp

theorem trimChars_decomp (l : List Char) :
    ∃ w₁ w₂, l = w₁ ++ (trimChars l ++ w₂) ∧
      (∀ c ∈ w₁, isWsJS c = true) ∧ (∀ c ∈ w₂, isWsJS c = true) := by
  refine ⟨l.takeWhile isWsJS, ((l.dropWhile isWsJS).reverse.takeWhile isWsJS).reverse,
    ?_, ?_, ?_⟩
  · conv_lhs => rw [← List.takeWhile_append_dropWhile isWsJS l]
    congr 1
    have hrr : l.dropWhile isWsJS = ((l.dropWhile isWsJS).reverse).reverse := by simp
    conv_lhs =>
      rw [hrr, ← List.takeWhile_append_dropWhile isWsJS (l.dropWhile isWsJS).reverse]
    rw [List.reverse_append]
    rfl
  · intro c hc
    exact List.mem_takeWhile_imp hc
  · intro c hc
    exact List.mem_takeWhile_imp (List.mem_reverse.mp hc)

theorem mem_trimChars_of_not_ws (c : Char) (l : List Char) (hws : isWsJS c = false)
    (h : c ∈ l) : c ∈ trimChars l := by
  obtain ⟨w₁, w₂, hdec, h1, h2⟩ := trimChars_decomp l
  rw [hdec] at h
  rcases List.mem_append.mp h with h | h
  · rw [h1 c h] at hws
    exact absurd hws (by simp)
  · rcases List.mem_append.mp h with h | h
    · exact h
    · rw [h2 c h] at hws
      exact absurd hws (by simp)

theorem findIdx_first_char_aux (c : Char) : ∀ (x r : List Char) (i : ℕ), c ∉ x →
    List.findIdx? (fun ch => ch = c) (x ++ c :: r) i = some (i + x.length) := by
  intro x
  induction x with
  | nil =>
    intro r i _
    simp [List.findIdx?_cons]
  | cons a xs ih =>
    intro r i hc
    have hac : (decide (a = c)) = false := decide_eq_false fun h => hc (by simp [h])
    rw [List.cons_append, List.findIdx?_cons]
    simp only [hac, Bool.false_eq_true, if_false]
    rw [ih r (i + 1) fun h => hc (List.mem_cons_of_mem _ h)]
    congr 1
    simp only [List.length_cons]
    omega

theorem indexOfJS_first (c : Char) (x r : List Char) (h : c ∉ x) :
    indexOfJS c (x ++ c :: r) = some x.length := by
  unfold indexOfJS
  rw [findIdx_first_char_aux c x r 0 h]
  simp

theorem indexOfJS_eq_none (c : Char) (l : List Char) (h : c ∉ l) : indexOfJS c l = none := by
  unfold indexOfJS
  rw [List.findIdx?_eq_none_iff]
  intro ch hch
  exact decide_eq_false fun he => h (he ▸ hch)

theorem lastIndexOfJS_last (c : Char) (x y : List Char) (h : c ∉ y) :
    lastIndexOfJS c (x ++ c :: y) = some x.length := by
  unfold lastIndexOfJS
  have hrev : (x ++ c :: y).reverse = y.reverse ++ c :: x.reverse := by simp
  rw [hrev, indexOfJS_first c y.reverse x.reverse (by simpa using h)]
  simp only [Option.map_some']
  congr 1
  simp only [List.length_append, List.length_cons, List.length_reverse]
  omega

theorem lastIndexOfJS_eq_none (c : Char) (l : List Char) (h : c ∉ l) :
    lastIndexOfJS c l = none := by
  unfold lastIndexOfJS
  rw [indexOfJS_eq_none c l.reverse (by simpa using h)]
  rfl

theorem extractJsonCandidate_none_left (l : List Char) (h : lbrace ∉ l) :
    extractJsonCandidate l = none := by
  unfold extractJsonCandidate
  rw [indexOfJS_eq_none lbrace l h]

theorem extractJsonCandidate_none_right (l : List Char) (h : rbrace ∉ l) :
    extractJsonCandidate l = none := by
  unfold extractJsonCandidate
  rw [lastIndexOfJS_eq_none rbrace l h]
  cases indexOfJS lbrace l <;> rfl

theorem extractJsonCandidate_main (x m y : List Char)
    (hx : lbrace ∉ x) (hy : rbrace ∉ y) :
    extractJsonCandidate (x ++ lbrace :: (m ++ rbrace :: y))
      = some (lbrace :: (m ++ [rbrace])) := by
  unfold extractJsonCandidate
  rw [indexOfJS_first lbrace x (m ++ rbrace :: y) hx]
  rw [show lastIndexOfJS rbrace (x ++ lbrace :: (m ++ rbrace :: y))
      = some (x ++ lbrace :: m).length from by
    rw [show x ++ lbrace :: (m ++ rbrace :: y) = (x ++ lbrace :: m) ++ rbrace :: y from by simp]
    exact lastIndexOfJS_last rbrace _ y hy]
  simp only [List.length_append, List.length_cons]
  congr 1
  unfold substringJS
  rw [if_pos (by omega)]
  rw [show x.length + (m.length + 1) + 1 - x.length = m.length + 2 from by omega]
  rw [List.drop_left x (lbrace :: (m ++ rbrace :: y))]
  rw [List.take_succ_cons]
  congr 1
  rw [List.take_append_eq_append_take]
  rw [List.take_of_length_le (by omega)]
  rw [show m.length + 1 - m.length = 1 from by omega]
  rfl

theorem extractJsonCandidate_swap (x m y : List Char)
    (hx : lbrace ∉ x) (hm1 : lbrace ∉ m) (hm2 : rbrace ∉ m) (hy : rbrace ∉ y) :
    extractJsonCandidate (x ++ rbrace :: (m ++ lbrace :: y)) = some m := by
  unfold extractJsonCandidate
  have hbrne : lbrace ≠ rbrace := by decide
  rw [show lastIndexOfJS rbrace (x ++ rbrace :: (m ++ lbrace :: y))
      = some x.length from by
    refine lastIndexOfJS_last rbrace x (m ++ lbrace :: y) ?_
    intro h
    rcases List.mem_append.mp h with h | h
    · exact hm2 h
    · rcases List.mem_cons.mp h with h | h
      · exact hbrne h.symm
      · exact hy h]
  rw [show indexOfJS lbrace (x ++ rbrace :: (m ++ lbrace :: y))
      = some (x ++ rbrace :: m).length from by
    rw [show x ++ rbrace :: (m ++ lbrace :: y) = (x ++ rbrace :: m) ++ lbrace :: y from by simp]
    refine indexOfJS_first lbrace _ y ?_
    intro h
    rcases List.mem_append.mp h with h | h
    · exact hx h
    · rcases List.mem_cons.mp h with h | h
      · exact hbrne h
      · exact hm1 h]
  simp only [List.length_append, List.length_cons]
  congr 1
  unfold substringJS
  rcases Nat.eq_zero_or_pos m.length with hm0 | hmpos
  · have hme : m = [] := List.length_eq_zero.mp hm0
    subst hme
    rw [if_pos (by simp)]
    simp
  · rw [if_neg (by omega)]
    rw [show x.length + (m.length + 1) - (x.length + 1) = m.length from by omega]
    rw [show x ++ rbrace :: (m ++ lbrace :: y) = (x ++ [rbrace]) ++ (m ++ lbrace :: y)
      from by simp]
    rw [List.drop_left' (by simp)]
    rw [List.take_append_eq_append_take]
    rw [List.take_of_length_le (by omega)]
    simp

theorem first_split (c : Char) (l : List Char) (hl : c ∈ l) :
    ∃ x r, l = x ++ c :: r ∧ c ∉ x := by
  induction l with
  | nil => simp at hl
  | cons a as ih =>
    by_cases hac : a = c
    · exact ⟨[], as, by rw [hac]; rfl, by simp⟩
    · have hcs : c ∈ as := by
        rcases List.mem_cons.mp hl with h | h
        · exact absurd h.symm hac
        · exact h
      obtain ⟨x, r, hxr, hx⟩ := ih hcs
      refine ⟨a :: x, r, by rw [hxr]; rfl, ?_⟩
      intro hmem
      rcases List.mem_cons.mp hmem with h | h
      · exact hac h.symm
      · exact hx h

theorem last_split (c : Char) (l : List Char) (h : c ∈ l) :
    ∃ x r, l = x ++ c :: r ∧ c ∉ r := by
  obtain ⟨x, r, hxr, hx⟩ := first_split c l.reverse (by simpa using h)
  refine ⟨r.reverse, x.reverse, ?_, by simpa using hx⟩
  have hrr := congrArg List.reverse hxr
  simpa using hrr

theorem trimChars_shape (a b : Char) (ha : isWsJS a = false) (hb : isWsJS b = false)
    (x m y : List Char) (l : List Char) (hl : l = x ++ a :: (m ++ b :: y)) :
    ∃ x₂ y₂, trimChars l = x₂ ++ a :: (m ++ b :: y₂) ∧
      (∀ c, c ∈ x₂ → c ∈ x) ∧ (∀ c, c ∈ y₂ → c ∈ y) := by
  obtain ⟨w₁, w₂, hdec, h1, h2⟩ := trimChars_decomp l
  have hpw : List.IsPrefix w₁ l := ⟨trimChars l ++ w₂, hdec.symm⟩
  have hpxa : List.IsPrefix (x ++ [a]) l := ⟨m ++ b :: y, by rw [hl]; simp⟩
  have hlen1 : w₁.length ≤ x.length := by
    by_contra hcon
    push_neg at hcon
    have hpre : List.IsPrefix (x ++ [a]) w₁ :=
      List.prefix_of_prefix_length_le hpxa hpw (by simp; omega)
    have hmem : a ∈ w₁ := hpre.subset (by simp)
    rw [h1 a hmem] at ha
    exact absurd ha (by simp)
  have hpx : List.IsPrefix x l := ⟨a :: (m ++ b :: y), by rw [hl]⟩
  obtain ⟨x₂, hx₂⟩ := List.prefix_of_prefix_length_le hpw hpx hlen1
  have hsw : List.IsSuffix w₂ l := by
    refine ⟨w₁ ++ trimChars l, ?_⟩
    conv_rhs => rw [hdec]
    rw [List.append_assoc]
  have hsyb : List.IsSuffix (b :: y) l := ⟨x ++ a :: m, by rw [hl]; simp⟩
  have hlen2 : w₂.length ≤ y.length := by
    by_contra hcon
    push_neg at hcon
    have hsuf : List.IsSuffix (b :: y) w₂ :=
      List.suffix_of_suffix_length_le hsyb hsw (by simp; omega)
    have hmem : b ∈ w₂ := hsuf.subset (by simp)
    rw [h2 b hmem] at hb
    exact absurd hb (by simp)
  have hsy : List.IsSuffix y l := ⟨x ++ a :: (m ++ [b]), by rw [hl]; simp⟩
  obtain ⟨y₂, hy₂⟩ := List.suffix_of_suffix_length_le hsw hsy hlen2
  refine ⟨x₂, y₂, ?_, ?_, ?_⟩
  · have heq : w₁ ++ (trimChars l ++ w₂)
        = w₁ ++ ((x₂ ++ a :: (m ++ b :: y₂)) ++ w₂) := by
      rw [← hdec, hl, ← hx₂, ← hy₂]
      simp
    exact List.append_cancel_right (List.append_cancel_left heq)
  · intro c hc
    rw [← hx₂]
    exact List.mem_append.mpr (Or.inr hc)
  · intro c hc
    rw [← hy₂]
    exact List.mem_append.mpr (Or.inl hc)

theorem strip_two_barrier (c : Char)
    (h1 : c ∉ ([backquote, backquote, backquote, 'j', 's', 'o', 'n'] : List Char))
    (h2 : c ≠ '\n') (u v : List Char) :
    stripPat backquote [backquote, backquote]
        (stripPat backquote [backquote, backquote, 'j', 's', 'o', 'n'] (u ++ c :: v))
      = stripPat backquote [backquote, backquote]
          (stripPat backquote [backquote, backquote, 'j', 's', 'o', 'n'] u)
        ++ c :: stripPat backquote [backquote, backquote]
          (stripPat backquote [backquote, backquote, 'j', 's', 'o', 'n'] v) := by
  have hcb : c ≠ backquote := by
    intro h
    exact h1 (by rw [h]; simp)
  have hc2 : c ∉ backquote :: [backquote, backquote] := by
    intro hmem
    rcases List.mem_cons.mp hmem with h | h
    · exact hcb h
    · rcases List.mem_cons.mp h with h | h
      · exact hcb h
      · rcases List.mem_cons.mp h with h | h
        · exact hcb h
        · simp at h
  rw [stripPat_append_barrier backquote [backquote, backquote, 'j', 's', 'o', 'n'] c h1 h2 u v]
  rw [stripPat_append_barrier backquote [backquote, backquote] c hc2 h2 _ _]

theorem strip_two_shape (a b : Char)
    (ha1 : a ∉ ([backquote, backquote, backquote, 'j', 's', 'o', 'n'] : List Char))
    (ha2 : a ≠ '\n')
    (hb1 : b ∉ ([backquote, backquote, backquote, 'j', 's', 'o', 'n'] : List Char))
    (hb2 : b ≠ '\n') (x m y : List Char) :
    stripPat backquote [backquote, backquote]
        (stripPat backquote [backquote, backquote, 'j', 's', 'o', 'n']
          (x ++ a :: (m ++ b :: y)))
      = stripPat backquote [backquote, backquote]
          (stripPat backquote [backquote, backquote, 'j', 's', 'o', 'n'] x)
        ++ a :: (stripPat backquote [backquote, backquote]
            (stripPat backquote [backquote, backquote, 'j', 's', 'o', 'n'] m)
          ++ b :: stripPat backquote [backquote, backquote]
            (stripPat backquote [backquote, backquote, 'j', 's', 'o', 'n'] y)) := by
  rw [strip_two_barrier a ha1 ha2 x (m ++ b :: y)]
  rw [strip_two_barrier b hb1 hb2 m y]

theorem cleanFences_not_mem (c : Char) (l : List Char) (h : c ∉ l) :
    c ∉ cleanFences l :=
  stripPat_not_mem _ _ c _ (stripPat_not_mem _ _ c _ (trimChars_not_mem c l h))

theorem wrapFenceJson_data (t : String) :
    (wrapFenceJson t).data
      = [backquote, backquote, backquote, 'j', 's', 'o', 'n', '\n']
        ++ (t.data ++ ['\n', backquote, backquote, backquote]) := by
  unfold wrapFenceJson
  simp [show ("```json\n" : String).data
      = [backquote, backquote, backquote, 'j', 's', 'o', 'n', '\n'] from by decide]
  decide

theorem cleanFences_wrapped (d : List Char) :
    cleanFences ([backquote, backquote, backquote, 'j', 's', 'o', 'n', '\n']
        ++ (d ++ ['\n', backquote, backquote, backquote]))
      = stripPat backquote [backquote, backquote]
          (stripPat backquote [backquote, backquote, 'j', 's', 'o', 'n']
            (d ++ ['\n', backquote, backquote, backquote])) := by
  unfold cleanFences
  rw [show [backquote, backquote, backquote, 'j', 's', 'o', 'n', '\n']
        ++ (d ++ ['\n', backquote, backquote, backquote])
      = backquote :: (([backquote, backquote, 'j', 's', 'o', 'n', '\n']
          ++ (d ++ ['\n', backquote, backquote])) ++ [backquote]) from by simp]
  rw [trimChars_of_ends _ backquote backquote (by decide) (by decide)]
  rw [show backquote :: (([backquote, backquote, 'j', 's', 'o', 'n', '\n']
          ++ (d ++ ['\n', backquote, backquote])) ++ [backquote])
      = (backquote :: ([backquote, backquote, 'j', 's', 'o', 'n'] ++ ['\n']))
        ++ (d ++ ['\n', backquote, backquote, backquote]) from by simp]
  rw [stripPat_fence_open]

theorem extract_clean_main (x m y : List Char) (hx : lbrace ∉ x) (hy : rbrace ∉ y) :
    extractJsonCandidate (cleanFences (x ++ lbrace :: (m ++ rbrace :: y)))
      = some (lbrace :: (stripPat backquote [backquote, backquote]
          (stripPat backquote [backquote, backquote, 'j', 's', 'o', 'n'] m) ++ [rbrace])) := by
  obtain ⟨x₂, y₂, htr, hxs, hys⟩ := trimChars_shape lbrace rbrace (by decide) (by decide)
    x m y _ rfl
  unfold cleanFences
  rw [htr]
  rw [strip_two_shape lbrace rbrace (by decide) (by decide) (by decide) (by decide) x₂ m y₂]
  exact extractJsonCandidate_main _ _ _
    (stripPat_not_mem _ _ _ _ (stripPat_not_mem _ _ _ _ (fun hmem => hx (hxs _ hmem))))
    (stripPat_not_mem _ _ _ _ (stripPat_not_mem _ _ _ _ (fun hmem => hy (hys _ hmem))))

theorem extract_clean_swap (u v r : List Char) (hu : lbrace ∉ u) (hv1 : lbrace ∉ v)
    (hv2 : rbrace ∉ v) (hr : rbrace ∉ r) :
    extractJsonCandidate (cleanFences (u ++ rbrace :: (v ++ lbrace :: r)))
      = some (stripPat backquote [backquote, backquote]
          (stripPat backquote [backquote, backquote, 'j', 's', 'o', 'n'] v)) := by
  obtain ⟨u₂, r₂, htr, hus, hrs⟩ := trimChars_shape rbrace lbrace (by decide) (by decide)
    u v r _ rfl
  unfold cleanFences
  rw [htr]
  rw [strip_two_shape rbrace lbrace (by decide) (by decide) (by decide) (by decide) u₂ v r₂]
  exact extractJsonCandidate_swap _ _ _
    (stripPat_not_mem _ _ _ _ (stripPat_not_mem _ _ _ _ (fun hmem => hu (hus _ hmem))))
    (stripPat_not_mem _ _ _ _ (stripPat_not_mem _ _ _ _ hv1))
    (stripPat_not_mem _ _ _ _ (stripPat_not_mem _ _ _ _ hv2))
    (stripPat_not_mem _ _ _ _ (stripPat_not_mem _ _ _ _ (fun hmem => hr (hrs _ hmem))))

theorem extract_wrap_main (x m y : List Char) (hx : lbrace ∉ x) (hy : rbrace ∉ y) :
    extractJsonCandidate (cleanFences
        ([backquote, backquote, backquote, 'j', 's', 'o', 'n', '\n']
          ++ ((x ++ lbrace :: (m ++ rbrace :: y))
            ++ ['\n', backquote, backquote, backquote])))
      = some (lbrace :: (stripPat backquote [backquote, backquote]
          (stripPat backquote [backquote, backquote, 'j', 's', 'o', 'n'] m) ++ [rbrace])) := by
  rw [cleanFences_wrapped]
  rw [show (x ++ lbrace :: (m ++ rbrace :: y)) ++ ['\n', backquote, backquote, backquote]
      = x ++ lbrace :: (m ++ rbrace :: (y ++ ['\n', backquote, backquote, backquote]))
      from by simp]
  rw [strip_two_shape lbrace rbrace (by decide) (by decide) (by decide) (by decide) x m _]
  refine extractJsonCandidate_main _ _ _
    (stripPat_not_mem _ _ _ _ (stripPat_not_mem _ _ _ _ hx))
    (stripPat_not_mem _ _ _ _ (stripPat_not_mem _ _ _ _ ?_))
  intro hmem
  rcases List.mem_append.mp hmem with h | h
  · exact hy h
  · revert h
    decide

theorem extract_wrap_swap (u v r : List Char) (hu : lbrace ∉ u) (hv1 : lbrace ∉ v)
    (hv2 : rbrace ∉ v) (hr : rbrace ∉ r) :
    extractJsonCandidate (cleanFences
        ([backquote, backquote, backquote, 'j', 's', 'o', 'n', '\n']
          ++ ((u ++ rbrace :: (v ++ lbrace :: r))
            ++ ['\n', backquote, backquote, backquote])))
      = some (stripPat backquote [backquote, backquote]
          (stripPat backquote [backquote, backquote, 'j', 's', 'o', 'n'] v)) := by
  rw [cleanFences_wrapped]
  rw [show (u ++ rbrace :: (v ++ lbrace :: r)) ++ ['\n', backquote, backquote, backquote]
      = u ++ rbrace :: (v ++ lbrace :: (r ++ ['\n', backquote, backquote, backquote]))
      from by simp]
  rw [strip_two_shape rbrace lbrace (by decide) (by decide) (by decide) (by decide) u v _]
  refine extractJsonCandidate_swap _ _ _
    (stripPat_not_mem _ _ _ _ (stripPat_not_mem _ _ _ _ hu))
    (stripPat_not_mem _ _ _ _ (stripPat_not_mem _ _ _ _ hv1))
    (stripPat_not_mem _ _ _ _ (stripPat_not_mem _ _ _ _ hv2))
    (stripPat_not_mem _ _ _ _ (stripPat_not_mem _ _ _ _ ?_))
  intro hmem
  rcases List.mem_append.mp hmem with h | h
  · exact hr h
  · revert h
    decide

/-- C7: `parseJSONResponse` recovers a JSON object wrapped in fenced
code-block markup identically to one without the markers: for every abstract
`JSON.parse` function `jparse` and every text `t`, parsing
`t` wrapped as a fenced block returns exactly the same result as parsing `t`
itself.  The proof follows the source extraction rule: strip the fence
markers, locate the first `{` and the last `}`, and cut out the substring;
the stripping passes never touch a brace, so the extracted candidate is the
same with and without the markers. -/
theorem claim7_fence_wrapping {α : Type} (jparse : List Char → Option α) (t : String) :
    parseJSONResponse jparse (wrapFenceJson t) = parseJSONResponse jparse t := by
  unfold parseJSONResponse
  rw [wrapFenceJson_data]
  refine congrArg (fun o : Option (List Char) => o.bind jparse) ?_
  by_cases hl : lbrace ∈ t.data
  · by_cases hr : rbrace ∈ t.data
    · obtain ⟨x, r, hxr, hx⟩ := first_split lbrace t.data hl
      by_cases hrr : rbrace ∈ r
      · obtain ⟨m, y, hmy, hy⟩ := last_split rbrace r hrr
        rw [hxr, hmy]
        rw [extract_wrap_main x m y hx hy, extract_clean_main x m y hx hy]
      · have hrx : rbrace ∈ x := by
          rw [hxr] at hr
          rcases List.mem_append.mp hr with h | h
          · exact h
          · rcases List.mem_cons.mp h with h | h
            · exact absurd h (by decide)
            · exact absurd h hrr
        obtain ⟨u, v, huv, hv⟩ := last_split rbrace x hrx
        have hu : lbrace ∉ u := fun h => hx (by rw [huv]; exact List.mem_append.mpr (Or.inl h))
        have hv1 : lbrace ∉ v := fun h => hx (by rw [huv]; simp [h])
        rw [hxr, huv]
        rw [show (u ++ rbrace :: v) ++ lbrace :: r = u ++ rbrace :: (v ++ lbrace :: r)
          from by simp]
        rw [extract_wrap_swap u v r hu hv1 hv hrr, extract_clean_swap u v r hu hv1 hv hrr]
    · rw [extractJsonCandidate_none_right _ (cleanFences_not_mem _ _ (by
          intro hmem
          rcases List.mem_append.mp hmem with h | h
          · revert h; decide
          · rcases List.mem_append.mp h with h | h
            · exact hr h
            · revert h; decide))]
      rw [extractJsonCandidate_none_right _ (cleanFences_not_mem _ _ hr)]
  · rw [extractJsonCandidate_none_left _ (cleanFences_not_mem _ _ (by
        intro hmem
        rcases List.mem_append.mp hmem with h | h
        · revert h; decide
        · rcases List.mem_append.mp h with h | h
          · exact hl h
          · revert h; decide))]
    rw [extractJsonCandidate_none_left _ (cleanFences_not_mem _ _ hl)]
